import Mathlib

/-!
Verification of the per-frame simulation core of a 2D side-scrolling action
game (source: src/components/GameCanvas.tsx, entity model in src/unnamed/part_000).

The game loop mutates a single world of player / bullets / enemies / platforms /
particles / camera.  We embed that world as an explicit state record and the
loop body as a pure state transformer, mirroring the source statement for
statement.  JavaScript numbers are modelled as exact rationals.  The numeric
values of the constants module (imported by GameCanvas.tsx but absent from the
sources) are kept abstract in a Consts record; transcendental functions
(Math.atan2 / cos / sin) and randomness (Math.random in createParticles and
enemy ids) are abstract parameters of an Env record, since no simulation
branch inspects their results.
-/

namespace Contra

/-- Direction enum from types: Right = 1, Left = -1. -/
inductive Direction where
  | right
  | left
  deriving DecidableEq

/-- Numeric value of a Direction, as used in arithmetic (bullet aiming). -/
def Direction.val : Direction → ℚ
  | .right => 1
  | .left => -1

/-- GameState enum from types. -/
inductive GameState where
  | MENU
  | PLAYING
  | GAME_OVER
  | VICTORY
  deriving DecidableEq

/-- Bullet owner tag from types. -/
inductive BulletOwner where
  | player
  | enemy
  deriving DecidableEq

/-- Color strings used by the simulation (presentation-only payload). -/
inductive GColor where
  | blue
  | red
  | white
  | orange
  | enemyRed
  | bulletColor
  deriving DecidableEq

/-- Player animation tag from types (never read by the simulation). -/
inductive PlayerAnim where
  | idle
  | run
  | jump
  deriving DecidableEq

/-- Enemy animation tag from types (never read by the simulation). -/
inductive EnemyAnim where
  | idle
  | running
  | shooting
  deriving DecidableEq

/-- Enemy type tag from types. -/
inductive EnemyType where
  | runner
  | turret
  | boss
  deriving DecidableEq

/-- Box interface from types: axis-aligned rectangle. -/
structure Box where
  x : ℚ
  y : ℚ
  width : ℚ
  height : ℚ
  deriving DecidableEq

/-- Player interface from types (Entity and Box fields flattened). -/
structure Player where
  x : ℚ
  y : ℚ
  width : ℚ
  height : ℚ
  vx : ℚ
  vy : ℚ
  color : GColor
  isDead : Bool
  direction : Direction
  isGrounded : Bool
  isCrouching : Bool
  shootCooldown : ℚ
  invincibleTimer : ℚ
  hp : ℚ
  score : ℚ
  anim : PlayerAnim
  facingVertical : ℚ
  deriving DecidableEq

/-- Bullet interface from types (Entity and Box fields flattened). -/
structure Bullet where
  x : ℚ
  y : ℚ
  width : ℚ
  height : ℚ
  vx : ℚ
  vy : ℚ
  color : GColor
  isDead : Bool
  owner : BulletOwner
  life : ℚ
  deriving DecidableEq

/-- Enemy interface from types (Entity and Box fields flattened). -/
structure Enemy where
  id : ℚ
  x : ℚ
  y : ℚ
  width : ℚ
  height : ℚ
  vx : ℚ
  vy : ℚ
  color : GColor
  isDead : Bool
  type : EnemyType
  hp : ℚ
  shootCooldown : ℚ
  anim : EnemyAnim
  direction : Direction
  deriving DecidableEq

/-- Platform type tag from types. -/
inductive PlatformType where
  | solid
  | passThrough
  deriving DecidableEq

/-- Platform interface from types. -/
structure Platform where
  x : ℚ
  y : ℚ
  width : ℚ
  height : ℚ
  type : PlatformType
  deriving DecidableEq

/-- Particle record pushed by createParticles (ad hoc object in the source). -/
structure Particle where
  x : ℚ
  y : ℚ
  vx : ℚ
  vy : ℚ
  life : ℚ
  color : GColor
  deriving DecidableEq

/-- InputState interface from types. -/
structure InputState where
  left : Bool
  right : Bool
  up : Bool
  down : Bool
  jump : Bool
  shoot : Bool
  deriving DecidableEq

/-- Named constants imported from the constants module, which is not among the
sources; their values are therefore kept abstract and only their use sites are
modelled. -/
structure Consts where
  CANVAS_WIDTH : ℚ
  CANVAS_HEIGHT : ℚ
  GRAVITY : ℚ
  PLAYER_SPEED : ℚ
  JUMP_FORCE : ℚ
  BULLET_SPEED : ℚ
  SHOOT_COOLDOWN : ℚ
  CAMERA_OFFSET_X : ℚ
  ENEMY_SPEED : ℚ
  LEVEL_LENGTH : ℚ

/-- Environment of the simulation: the constants record plus abstract models of
Math.atan2, Math.cos, Math.sin (their outputs feed only enemy-bullet velocity
components, never a branch), of the 8-particle burst built by createParticles
with Math.random velocities, and of the Math.random enemy ids. -/
structure Env where
  C : Consts
  atan2 : ℚ → ℚ → ℚ
  qcos : ℚ → ℚ
  qsin : ℚ → ℚ
  mkParticles : ℚ → ℚ → GColor → List Particle
  mkId : ℕ → ℚ

/-- Whole mutable game state of GameCanvas: the refs player / bullets / enemies /
particles / platforms / camera / tick, plus the React gameState prop as last
written by setGameState. -/
structure World where
  gState : GameState
  player : Player
  bullets : List Bullet
  enemies : List Enemy
  particles : List Particle
  platforms : List Platform
  camera : ℚ
  tick : ℕ

/-- Box view of a Player. -/
def Player.box (p : Player) : Box :=
  { x := p.x, y := p.y, width := p.width, height := p.height }

/-- Box view of a Bullet. -/
def Bullet.box (b : Bullet) : Box :=
  { x := b.x, y := b.y, width := b.width, height := b.height }

/-- Box view of an Enemy. -/
def Enemy.box (e : Enemy) : Box :=
  { x := e.x, y := e.y, width := e.width, height := e.height }

/-- Box view of a Platform. -/
def Platform.box (pl : Platform) : Box :=
  { x := pl.x, y := pl.y, width := pl.width, height := pl.height }

/-- checkCollision from GameCanvas.tsx: standard AABB overlap. -/
def checkCollision (r1 r2 : Box) : Prop :=
  r1.x < r2.x + r2.width ∧
  r1.x + r1.width > r2.x ∧
  r1.y < r2.y + r2.height ∧
  r1.y + r1.height > r2.y

instance (r1 r2 : Box) : Decidable (checkCollision r1 r2) :=
  inferInstanceAs (Decidable (_ ∧ _ ∧ _ ∧ _))

/-- Player input handling from update (horizontal movement, vertical facing,
jumping), GameCanvas.tsx lines 280-318. -/
def applyInput (C : Consts) (i : InputState) (p0 : Player) : Player :=
  let p :=
    if i.left then { p0 with vx := -C.PLAYER_SPEED, direction := .left }
    else if i.right then { p0 with vx := C.PLAYER_SPEED, direction := .right }
    else { p0 with vx := 0 }
  let p :=
    if i.up then { p with facingVertical := 1 }
    else if i.down then { p with facingVertical := -1 }
    else { p with facingVertical := 0 }
  if i.jump && p.isGrounded then
    if i.down then { p with y := p.y + 1, isGrounded := false, vy := 1 }
    else { p with vy := C.JUMP_FORCE, isGrounded := false }
  else p

/-- Gravity, position integration, and the left camera bound clamp, lines
320-326. -/
def integrate (C : Consts) (cam : ℚ) (p0 : Player) : Player :=
  let p := { p0 with vy := p0.vy + C.GRAVITY }
  let p := { p with x := p.x + p.vx }
  let p := { p with y := p.y + p.vy }
  if p.x < cam then { p with x := cam } else p

/-- Body of the platform collision loop, lines 332-349: on AABB overlap, if the
player moves downward and its previous bottom edge was at or above the platform
top, snap onto the platform, zero vy, and mark grounded. -/
def landStep (p : Player) (plat : Platform) : Player :=
  if checkCollision p.box plat.box then
    if p.vy > 0 ∧ p.y - p.vy + p.height ≤ plat.y then
      { p with y := plat.y - p.height, vy := 0, isGrounded := true }
    else p
  else p

/-- Platform collision resolution, lines 329-349: reset isGrounded, then run
the landing check against every platform in order. -/
def resolvePlatforms (platforms : List Platform) (p : Player) : Player :=
  platforms.foldl landStep { p with isGrounded := false }

/-- handlePlayerDeath from GameCanvas.tsx lines 537-571: no-op while
invincible; otherwise lose one hp and spawn a particle burst, then either
transition to GAME_OVER (hp exhausted) or respawn with 180 invincibility
frames. -/
def handlePlayerDeath (E : Env) (w : World) : World :=
  let player := w.player
  if player.invincibleTimer > 0 then w
  else
    let player := { player with hp := player.hp - 1 }
    let particles := w.particles ++ E.mkParticles player.x player.y .white
    if player.hp ≤ 0 then
      { w with player := player, particles := particles, gState := .GAME_OVER }
    else
      let player := { player with
        y := -100,
        x := max (w.camera + 50) player.x,
        vx := 0, vy := 0,
        invincibleTimer := 180 }
      { w with player := player, particles := particles }

/-- Player shooting, lines 356-415: decrement the cooldown while positive; if
shoot is held and the cooldown is now non-positive, pick the aim direction by
the branch ladder of the source and spawn a bullet at the player center with
owner player and life 100, resetting the cooldown. -/
def shootPhase (C : Consts) (i : InputState) (p0 : Player) : Player × List Bullet :=
  let p := if p0.shootCooldown > 0 then { p0 with shootCooldown := p0.shootCooldown - 1 } else p0
  if i.shoot ∧ p.shootCooldown ≤ 0 then
    let bdir : ℚ × ℚ :=
      if p.facingVertical = 1 then
        if i.left || i.right then
          (p.direction.val * C.BULLET_SPEED * (7/10), -C.BULLET_SPEED * (7/10))
        else (0, -C.BULLET_SPEED)
      else if p.facingVertical = -1 ∧ ¬ p.isGrounded then
        if i.left || i.right then
          (p.direction.val * C.BULLET_SPEED * (7/10), C.BULLET_SPEED * (7/10))
        else (0, C.BULLET_SPEED)
      else if p.facingVertical = -1 ∧ p.isGrounded then
        (p.direction.val * C.BULLET_SPEED, 0)
      else (p.direction.val * C.BULLET_SPEED, 0)
    let b : Bullet := {
      x := p.x + p.width / 2,
      y := p.y + p.height / 2,
      width := 8, height := 8,
      vx := bdir.1, vy := bdir.2,
      color := .bulletColor,
      isDead := false,
      owner := .player,
      life := 100 }
    ({ p with shootCooldown := C.SHOOT_COOLDOWN }, [b])
  else (p, [])

/-- Player-bullet vs enemy scan, lines 432-447: the first non-dead intersecting
enemy in collection order loses one hp and a particle burst is emitted; if its
hp drops to or below zero it is marked dead, the kill is scored (1000 for the
boss, else 100), and a boss kill sets VICTORY.  Returns the updated world, the
updated enemy list, and whether a hit occurred. -/
def bulletHitEnemies (E : Env) (b : Bullet) (w : World) :
    List Enemy → World × List Enemy × Bool
  | [] => (w, [], false)
  | e :: rest =>
    if ¬ e.isDead ∧ checkCollision b.box e.box then
      let e1 := { e with hp := e.hp - 1 }
      let w1 := { w with particles :=
        w.particles ++ E.mkParticles (e.x + e.width / 2) (e.y + e.height / 2) .red }
      if e1.hp ≤ 0 then
        let e2 := { e1 with isDead := true }
        let w2 := { w1 with player := { w1.player with
          score := w1.player.score + (if e.type = .boss then 1000 else 100) } }
        let w3 := if e.type = .boss then { w2 with gState := .VICTORY } else w2
        (w3, e2 :: rest, true)
      else (w1, e1 :: rest, true)
    else
      let r := bulletHitEnemies E b w rest
      (r.1, e :: r.2.1, r.2.2)

/-- Processing of one bullet in the bullets loop, lines 418-454: integrate and
decrement life; drop the bullet when expired or out of the camera-relative
viewport; otherwise resolve its collision (player bullets against enemies,
enemy bullets against the player).  A bullet killed by a hit keeps life 0 and
stays in the collection for this step. -/
def processOneBullet (E : Env) (w : World) (b0 : Bullet) : World × Option Bullet :=
  let b := { b0 with x := b0.x + b0.vx, y := b0.y + b0.vy, life := b0.life - 1 }
  if b.life ≤ 0 ∨ b.x < w.camera ∨ b.x > w.camera + E.C.CANVAS_WIDTH ∨
     b.y < 0 ∨ b.y > E.C.CANVAS_HEIGHT then
    (w, none)
  else if b.owner = .player then
    let r := bulletHitEnemies E b w w.enemies
    ({ r.1 with enemies := r.2.1 }, some (if r.2.2 then { b with life := 0 } else b))
  else
    if checkCollision b.box w.player.box ∧ w.player.invincibleTimer ≤ 0 then
      (handlePlayerDeath E w, some { b with life := 0 })
    else (w, some b)

/-- Reverse-index bullets loop, lines 418-455: bullets are visited from the
last index down to 0, splice removes only the current element, so each original
bullet is processed exactly once and survivors keep their relative order. -/
def bulletLoop (E : Env) : List Bullet → World → World × List Bullet
  | [], w => (w, [])
  | b :: rest, w =>
    let r := bulletLoop E rest w
    let s := processOneBullet E r.1 b
    (s.1,
      match s.2 with
      | some b1 => b1 :: r.2
      | none => r.2)

/-- Bullets update phase: run the loop over the current bullet collection and
store the surviving bullets. -/
def bulletPhase (E : Env) (w : World) : World :=
  let r := bulletLoop E w.bullets w
  { r.1 with bullets := r.2 }

/-- Body of the floor-clamp loop for runner enemies, lines 478-482: on overlap
(the AABB test written inline in the source) clamp the enemy onto the platform
top unconditionally. -/
def clampStep (e : Enemy) (plat : Platform) : Enemy :=
  if e.x < plat.x + plat.width ∧ e.x + e.width > plat.x ∧
     e.y < plat.y + plat.height ∧ e.y + e.height > plat.y then
    { e with y := plat.y - e.height }
  else e

/-- Floor clamp for runner enemies, lines 476-483: clamp onto every overlapping
platform top, in platform order. -/
def enemyFloorClamp (platforms : List Platform) (e0 : Enemy) : Enemy :=
  platforms.foldl clampStep e0

/-- Runner chase with simplified gravity and floor clamp, lines 466-483. -/
def runnerMove (E : Env) (player : Player) (platforms : List Platform)
    (e0 : Enemy) : Enemy :=
  if e0.type = .runner then
    let e : Enemy :=
      if |player.x - e0.x| > 10 then
        { e0 with vx := (if player.x - e0.x > 0 then 1 else -1) * E.C.ENEMY_SPEED,
                  direction := if player.x - e0.x > 0 then .right else .left }
      else e0
    let e : Enemy := { e with x := e.x + e.vx, y := e.y + 10 }
    enemyFloorClamp platforms e
  else e0

/-- The bullet spawned by a firing turret or boss, lines 490-503: aimed by
atan2 from the muzzle point (enemy.x, enemy.y + 10) at the player center, at
half the normal bullet speed, with owner enemy and life 200. -/
def enemyBullet (E : Env) (player : Player) (e : Enemy) : Bullet :=
  let angle := E.atan2 ((player.y + player.height / 2) - (e.y + 10))
                       ((player.x + player.width / 2) - e.x)
  let speed := E.C.BULLET_SPEED * (1/2)
  { x := e.x + e.width / 2,
    y := e.y + 10,
    width := 8, height := 8,
    vx := E.qcos angle * speed,
    vy := E.qsin angle * speed,
    color := .orange,
    isDead := false,
    owner := .enemy,
    life := 200 }

/-- Fire-control of turret and boss enemies, lines 487-506: decrement the
cooldown; when it reaches non-positive, spawn the aimed bullet and reset the
cooldown to the 120-tick slow-fire interval. -/
def enemyShoot (E : Env) (player : Player) (e1 : Enemy) : Enemy × List Bullet :=
  if e1.type = .turret ∨ e1.type = .boss then
    let e2 : Enemy := { e1 with shootCooldown := e1.shootCooldown - 1 }
    if e2.shootCooldown ≤ 0 then
      ({ e2 with shootCooldown := 120 }, [enemyBullet E player e2])
    else (e2, [])
  else (e1, [])

/-- Activation block of the enemies loop, lines 464-507: within the 600-unit
activation distance the runner movement and the turret/boss fire-control run
in order; outside the radius the enemy is dormant. -/
def enemyAct (E : Env) (player : Player) (platforms : List Platform)
    (e0 : Enemy) : Enemy × List Bullet :=
  if |player.x - e0.x| < 600 then
    enemyShoot E player (runnerMove E player platforms e0)
  else (e0, [])

/-- Per-enemy body of the enemies loop (continued): a dead enemy is inert;
otherwise run the activation block with the current player and platforms, then
apply touch damage against the moved enemy. -/
def enemyStep (E : Env) (w : World) (e0 : Enemy) : World × Enemy × List Bullet :=
  if e0.isDead then (w, e0, [])
  else
    let act := enemyAct E w.player w.platforms e0
    let e3 := act.1
    let w1 :=
      if checkCollision w.player.box e3.box ∧ w.player.invincibleTimer ≤ 0 ∧ ¬ e3.isDead then
        handlePlayerDeath E w
      else w
    (w1, e3, act.2)

/-- Enemies loop, lines 457-513, in collection order; enemy-spawned bullets are
pushed onto the live bullet array after the bullets loop has finished. -/
def enemyLoop (E : Env) : World → List Enemy → World × List Enemy × List Bullet
  | w, [] => (w, [], [])
  | w, e :: rest =>
    let r := enemyStep E w e
    let s := enemyLoop E r.1 rest
    (s.1, r.2.1 :: s.2.1, r.2.2 ++ s.2.2)

/-- Enemies update phase: run the loop and append the spawned bullets. -/
def enemyPhase (E : Env) (w : World) : World :=
  let r := enemyLoop E w w.enemies
  { r.1 with enemies := r.2.1, bullets := r.1.bullets ++ r.2.2 }

/-- Particles phase, lines 516-522: integrate, decrement life, and remove
expired particles (reverse-index removal of the current element is a
per-element filter). -/
def particlePhase (w : World) : World :=
  { w with particles := w.particles.filterMap (fun p0 =>
      let p := { p0 with x := p0.x + p0.vx, y := p0.y + p0.vy, life := p0.life - 1 }
      if p.life ≤ 0 then none else some p) }

/-- Camera follow and forward clamp, lines 524-530. -/
def cameraPhase (C : Consts) (px cam0 : ℚ) : ℚ :=
  let cam := if px > cam0 + C.CAMERA_OFFSET_X then px - C.CAMERA_OFFSET_X else cam0
  if cam > C.LEVEL_LENGTH - C.CANVAS_WIDTH then C.LEVEL_LENGTH - C.CANVAS_WIDTH else cam

/-- Invincibility countdown, lines 532-533. -/
def invincibilityPhase (p : Player) : Player :=
  if p.invincibleTimer > 0 then { p with invincibleTimer := p.invincibleTimer - 1 } else p

/-- Tick increment and player physics portion of update, lines 270-349: input
handling, integration with the left camera clamp, platform resolution. -/
def physicsStage (E : Env) (inputs : InputState) (w : World) : World :=
  { w with tick := w.tick + 1,
           player := resolvePlatforms w.platforms
             (integrate E.C w.camera (applyInput E.C inputs w.player)) }

/-- Pitfall death check, lines 352-354. -/
def pitfallStage (E : Env) (w : World) : World :=
  if w.player.y > E.C.CANVAS_HEIGHT then handlePlayerDeath E w else w

/-- Player shooting portion of update, lines 356-415: run shootPhase and push
any spawned bullet onto the bullet collection. -/
def shootStage (E : Env) (inputs : InputState) (w : World) : World :=
  { w with player := (shootPhase E.C inputs w.player).1,
           bullets := w.bullets ++ (shootPhase E.C inputs w.player).2 }

/-- Camera follow portion of update, lines 524-530. -/
def cameraStage (E : Env) (w : World) : World :=
  { w with camera := cameraPhase E.C w.player.x w.camera }

/-- Invincibility countdown portion of update, lines 532-533. -/
def invincibilityStage (w : World) : World :=
  { w with player := invincibilityPhase w.player }

/-- update from GameCanvas.tsx lines 267-535: one simulation step, in source
order — early return outside PLAYING, then player physics and platform
collision, pitfall death, shooting, bullets, enemies, particles, camera,
invincibility countdown. -/
def update (E : Env) (inputs : InputState) (w0 : World) : World :=
  if w0.gState ≠ .PLAYING then w0
  else
    invincibilityStage (cameraStage E (particlePhase (enemyPhase E (bulletPhase E
      (shootStage E inputs (pitfallStage E (physicsStage E inputs w0)))))))

/-- Ground chunk helper of initLevel, lines 159-161. -/
def addGround (C : Consts) (x width : ℚ) : Platform :=
  { x := x, y := C.CANVAS_HEIGHT - 40, width := width, height := 40, type := .solid }

/-- Floating platform helper of initLevel, lines 171-173. -/
def addPlat (x y w : ℚ) : Platform :=
  { x := x, y := y, width := w, height := 10, type := .passThrough }

/-- Static platform list built by initLevel, lines 156-186, in push order. -/
def initPlatforms (C : Consts) : List Platform :=
  [ addGround C 0 800, addGround C 900 300, addGround C 1300 600,
    addGround C 2000 200, addGround C 2300 1700,
    addPlat 400 400 100, addPlat 600 300 100, addPlat 950 400 100,
    addPlat 1400 450 100, addPlat 1600 350 100, addPlat 1800 250 100,
    addPlat 2400 400 100, addPlat 2600 300 100 ]

/-- Player reset record of initLevel, lines 189-194. -/
def initPlayer : Player :=
  { x := 100, y := 100, width := 24, height := 48, vx := 0, vy := 0,
    color := .blue, isDead := false, direction := .right,
    isGrounded := false, isCrouching := false, shootCooldown := 0,
    invincibleTimer := 0, hp := 3, score := 0, anim := .idle, facingVertical := 0 }

/-- spawnEnemy helper of initLevel, lines 202-218 (Math.random id passed in). -/
def spawnEnemy (C : Consts) (idv x : ℚ) (ty : EnemyType) (y : ℚ) : Enemy :=
  { id := idv, x := x,
    y := if y = 0 then C.CANVAS_HEIGHT - 88 else y,
    width := if ty = .boss then 60 else 24,
    height := if ty = .boss then 80 else 48,
    vx := 0, vy := 0, color := .enemyRed, isDead := false, type := ty,
    hp := if ty = .boss then 50 else 1,
    shootCooldown := 0, anim := .idle, direction := .left }

/-- Enemy spawn list of initLevel, lines 220-228, in call order. -/
def initEnemies (E : Env) : List Enemy :=
  [ spawnEnemy E.C (E.mkId 0) 600 .runner 0,
    spawnEnemy E.C (E.mkId 1) 1000 .turret 350,
    spawnEnemy E.C (E.mkId 2) 1200 .runner 0,
    spawnEnemy E.C (E.mkId 3) 1500 .runner 0,
    spawnEnemy E.C (E.mkId 4) 1700 .turret 300,
    spawnEnemy E.C (E.mkId 5) 2200 .runner 0,
    spawnEnemy E.C (E.mkId 6) 2500 .runner 0,
    spawnEnemy E.C (E.mkId 7) 2800 .runner 0,
    spawnEnemy E.C (E.mkId 8) 3500 .boss (E.C.CANVAS_HEIGHT - 120) ]

/-- initLevel from GameCanvas.tsx lines 154-230: rebuild platforms, reset the
player, clear bullets, enemies, particles, camera, and tick, then spawn the
fixed enemy layout.  The React gameState prop is untouched and passed through. -/
def initLevel (E : Env) (gs : GameState) : World :=
  { gState := gs, player := initPlayer, bullets := [], enemies := initEnemies E,
    particles := [], platforms := initPlatforms E.C, camera := 0, tick := 0 }

/-- Modelled from the spec: concrete values for the constants module, which is
imported by GameCanvas.tsx but missing from the sources.  PLAYER_SPEED is 3
(spec section 8, movement scenario); the remaining values are plausible
instantiations used only to build concrete witness inputs — every general
theorem below quantifies over the constants. -/
def specConsts : Consts :=
  { CANVAS_WIDTH := 800, CANVAS_HEIGHT := 480, GRAVITY := 1/2,
    PLAYER_SPEED := 3, JUMP_FORCE := -12, BULLET_SPEED := 10,
    SHOOT_COOLDOWN := 10, CAMERA_OFFSET_X := 200, ENEMY_SPEED := 2,
    LEVEL_LENGTH := 4000 }

/-- Concrete environment for witness inputs: spec-modelled constants with
trivial instantiations of the abstract trig and randomness parameters. -/
def specEnv : Env :=
  { C := specConsts,
    atan2 := fun _ _ => 0,
    qcos := fun _ => 1,
    qsin := fun _ => 0,
    mkParticles := fun _ _ _ => [],
    mkId := fun n => (n : ℚ) }

/-! ## Helper lemmas about platform landing -/

/-- A player who is not moving downward is unchanged by the landing check. -/
lemma landStep_of_vy_nonpos (p : Player) (plat : Platform) (h : ¬ p.vy > 0) :
    landStep p plat = p := by
  unfold landStep
  split
  · rw [if_neg]
    intro hc
    exact h hc.1
  · rfl

/-- A player who is not moving downward is unchanged by the whole landing fold. -/
lemma foldl_landStep_of_vy_nonpos (l : List Platform) (p : Player) (h : ¬ p.vy > 0) :
    List.foldl landStep p l = p := by
  induction l with
  | nil => rfl
  | cons a l ih => rw [List.foldl_cons, landStep_of_vy_nonpos p a h, ih]

/-- Claim C1: during platform collision resolution, when the loop reaches a
platform that the player overlaps while moving downward (vy > 0) with previous
bottom edge (y - vy + height) at or above the platform top, then after the
whole resolution pass the player's bottom edge rests exactly on that platform
top, vy is 0, and isGrounded is true. -/
theorem claim_C1 (p0 : Player) (pre post : List Platform) (plat : Platform)
    (hover : checkCollision
      (List.foldl landStep { p0 with isGrounded := false } pre).box plat.box)
    (hvy : (List.foldl landStep { p0 with isGrounded := false } pre).vy > 0)
    (habove : (List.foldl landStep { p0 with isGrounded := false } pre).y -
        (List.foldl landStep { p0 with isGrounded := false } pre).vy +
        (List.foldl landStep { p0 with isGrounded := false } pre).height ≤ plat.y) :
    (resolvePlatforms (pre ++ plat :: post) p0).y +
      (resolvePlatforms (pre ++ plat :: post) p0).height = plat.y ∧
    (resolvePlatforms (pre ++ plat :: post) p0).vy = 0 ∧
    (resolvePlatforms (pre ++ plat :: post) p0).isGrounded = true := by
  set q := List.foldl landStep { p0 with isGrounded := false } pre with hqdef
  have hsnap : landStep q plat =
      { q with y := plat.y - q.height, vy := 0, isGrounded := true } := by
    unfold landStep
    rw [if_pos hover, if_pos ⟨hvy, habove⟩]
  have hfold : resolvePlatforms (pre ++ plat :: post) p0 =
      List.foldl landStep (landStep q plat) post := by
    unfold resolvePlatforms
    rw [List.foldl_append, List.foldl_cons]
  rw [hfold, hsnap, foldl_landStep_of_vy_nonpos]
  · refine ⟨?_, rfl, rfl⟩
    show plat.y - q.height + q.height = plat.y
    ring
  · norm_num

/-- Concrete falling player for the C1 witness. -/
def c1Player : Player :=
  { x := 10, y := 60, width := 24, height := 48, vx := 0, vy := 10,
    color := .blue, isDead := false, direction := .right,
    isGrounded := false, isCrouching := false, shootCooldown := 0,
    invincibleTimer := 0, hp := 3, score := 0, anim := .idle, facingVertical := 0 }

/-- Concrete platform for the C1 witness. -/
def c1Plat : Platform :=
  { x := 0, y := 100, width := 100, height := 10, type := .solid }

/-- Witness for C1 at a concrete landing. -/
theorem claim_C1_witness :
    (resolvePlatforms ([] ++ c1Plat :: []) c1Player).y +
      (resolvePlatforms ([] ++ c1Plat :: []) c1Player).height = c1Plat.y ∧
    (resolvePlatforms ([] ++ c1Plat :: []) c1Player).vy = 0 ∧
    (resolvePlatforms ([] ++ c1Plat :: []) c1Player).isGrounded = true := by
  refine claim_C1 c1Player [] [] c1Plat ?_ ?_ ?_
  · norm_num [checkCollision, Player.box, Platform.box, c1Player, c1Plat]
  · norm_num [c1Player]
  · norm_num [c1Player, c1Plat]

/-! ## Terminal-state invariant and boss accounting -/

/-- Terminal disjunct carried through a step: the state is VICTORY, or it is
GAME_OVER with the player's hp exhausted.  Every GAME_OVER write of the source
happens at a point where hp is non-positive, and hp never increases during a
step, so this disjunction is preserved by every stage. -/
def VictoryOrDead (w : World) : Prop :=
  w.gState = .VICTORY ∨ (w.gState = .GAME_OVER ∧ w.player.hp ≤ 0)

/-- Number of live boss enemies in a collection; a boss kill during a step is
exactly a decrease of this count. -/
def liveBossCount (es : List Enemy) : ℕ :=
  es.countP (fun e => decide (e.type = .boss ∧ e.isDead = false))

/-! ## Helper lemmas about the death handler -/

/-- The death handler rejected by the invincibility guard is a strict no-op. -/
lemma handlePlayerDeath_of_invincible (E : Env) (w : World)
    (h : w.player.invincibleTimer > 0) : handlePlayerDeath E w = w := by
  unfold handlePlayerDeath
  rw [if_pos h]

/-- An accepted death decrements hp by exactly one. -/
lemma handlePlayerDeath_hp (E : Env) (w : World)
    (h : ¬ w.player.invincibleTimer > 0) :
    (handlePlayerDeath E w).player.hp = w.player.hp - 1 := by
  unfold handlePlayerDeath
  rw [if_neg h]
  dsimp only
  split <;> rfl

/-- Frame of the death handler: every component other than hp, position,
velocity, invincibleTimer, particles, and gState is untouched. -/
lemma handlePlayerDeath_frame (E : Env) (w : World) :
    (handlePlayerDeath E w).player.score = w.player.score ∧
    (handlePlayerDeath E w).platforms = w.platforms ∧
    (handlePlayerDeath E w).bullets = w.bullets ∧
    (handlePlayerDeath E w).enemies = w.enemies ∧
    (handlePlayerDeath E w).camera = w.camera ∧
    (handlePlayerDeath E w).tick = w.tick ∧
    (handlePlayerDeath E w).player.width = w.player.width ∧
    (handlePlayerDeath E w).player.height = w.player.height ∧
    (handlePlayerDeath E w).player.color = w.player.color ∧
    (handlePlayerDeath E w).player.isDead = w.player.isDead ∧
    (handlePlayerDeath E w).player.direction = w.player.direction ∧
    (handlePlayerDeath E w).player.isGrounded = w.player.isGrounded ∧
    (handlePlayerDeath E w).player.isCrouching = w.player.isCrouching ∧
    (handlePlayerDeath E w).player.shootCooldown = w.player.shootCooldown ∧
    (handlePlayerDeath E w).player.anim = w.player.anim ∧
    (handlePlayerDeath E w).player.facingVertical = w.player.facingVertical := by
  unfold handlePlayerDeath
  dsimp only
  split
  · simp
  · split <;> simp

/-- Death cannot raise hp: the handler either rejects the event or subtracts
one. -/
lemma handlePlayerDeath_hp_mono (E : Env) (w : World) :
    (handlePlayerDeath E w).player.hp ≤ w.player.hp := by
  unfold handlePlayerDeath
  dsimp only
  split_ifs <;> simp

/-- The handler keeps a non-negative invincibility timer non-negative: it
either leaves the timer alone or sets it to 180. -/
lemma handlePlayerDeath_timer_nonneg (E : Env) (w : World)
    (h : 0 ≤ w.player.invincibleTimer) :
    0 ≤ (handlePlayerDeath E w).player.invincibleTimer := by
  unfold handlePlayerDeath
  dsimp only
  split_ifs with h1 h2
  · exact h
  · simpa using h
  · norm_num

/-- The handler preserves the terminal disjunct: a GAME_OVER write happens
only with exhausted hp, and hp never increases. -/
lemma handlePlayerDeath_done (E : Env) (w : World) (h : VictoryOrDead w) :
    VictoryOrDead (handlePlayerDeath E w) := by
  unfold handlePlayerDeath VictoryOrDead
  dsimp only
  split_ifs with h1 h2
  · exact h
  · right
    exact ⟨rfl, by simpa using h2⟩
  · rcases h with hv | ⟨hg, hhp⟩
    · left
      exact hv
    · exfalso
      apply h2
      simp
      linarith

/-- Claim C10: the death handler changes neither score nor the platform list
nor any component other than hp, position, velocity, invincibleTimer, the
particle collection, and the game state — for accepted and rejected calls
alike. -/
theorem claim_C10 (E : Env) (w : World) :
    (handlePlayerDeath E w).player.score = w.player.score ∧
    (handlePlayerDeath E w).platforms = w.platforms ∧
    (handlePlayerDeath E w).bullets = w.bullets ∧
    (handlePlayerDeath E w).enemies = w.enemies ∧
    (handlePlayerDeath E w).camera = w.camera ∧
    (handlePlayerDeath E w).tick = w.tick ∧
    (handlePlayerDeath E w).player.width = w.player.width ∧
    (handlePlayerDeath E w).player.height = w.player.height ∧
    (handlePlayerDeath E w).player.color = w.player.color ∧
    (handlePlayerDeath E w).player.isDead = w.player.isDead ∧
    (handlePlayerDeath E w).player.direction = w.player.direction ∧
    (handlePlayerDeath E w).player.isGrounded = w.player.isGrounded ∧
    (handlePlayerDeath E w).player.isCrouching = w.player.isCrouching ∧
    (handlePlayerDeath E w).player.shootCooldown = w.player.shootCooldown ∧
    (handlePlayerDeath E w).player.anim = w.player.anim ∧
    (handlePlayerDeath E w).player.facingVertical = w.player.facingVertical :=
  handlePlayerDeath_frame E w

/-! ## Frame lemmas for the physics chain -/

/-- Input handling touches only movement state, never hp, score, timers. -/
lemma applyInput_frame (C : Consts) (i : InputState) (p : Player) :
    (applyInput C i p).hp = p.hp ∧ (applyInput C i p).score = p.score ∧
    (applyInput C i p).invincibleTimer = p.invincibleTimer ∧
    (applyInput C i p).shootCooldown = p.shootCooldown := by
  unfold applyInput
  dsimp only
  split_ifs <;> simp

/-- Integration touches only position and velocity. -/
lemma integrate_frame (C : Consts) (cam : ℚ) (p : Player) :
    (integrate C cam p).hp = p.hp ∧ (integrate C cam p).score = p.score ∧
    (integrate C cam p).invincibleTimer = p.invincibleTimer ∧
    (integrate C cam p).shootCooldown = p.shootCooldown := by
  unfold integrate
  dsimp only
  split_ifs <;> simp

/-- One landing check touches only y, vy, isGrounded. -/
lemma landStep_frame (p : Player) (plat : Platform) :
    (landStep p plat).hp = p.hp ∧ (landStep p plat).score = p.score ∧
    (landStep p plat).invincibleTimer = p.invincibleTimer ∧
    (landStep p plat).shootCooldown = p.shootCooldown := by
  unfold landStep
  split_ifs <;> simp

/-- The landing fold touches only y, vy, isGrounded. -/
lemma foldl_landStep_frame (l : List Platform) (p : Player) :
    ((l.foldl landStep p).hp = p.hp ∧ (l.foldl landStep p).score = p.score ∧
     (l.foldl landStep p).invincibleTimer = p.invincibleTimer ∧
     (l.foldl landStep p).shootCooldown = p.shootCooldown) := by
  induction l generalizing p with
  | nil => simp
  | cons a l ih =>
    rw [List.foldl_cons]
    obtain ⟨h1, h2, h3, h4⟩ := ih (landStep p a)
    obtain ⟨g1, g2, g3, g4⟩ := landStep_frame p a
    exact ⟨h1.trans g1, h2.trans g2, h3.trans g3, h4.trans g4⟩

/-- Platform resolution touches only y, vy, isGrounded. -/
lemma resolvePlatforms_frame (l : List Platform) (p : Player) :
    (resolvePlatforms l p).hp = p.hp ∧ (resolvePlatforms l p).score = p.score ∧
    (resolvePlatforms l p).invincibleTimer = p.invincibleTimer ∧
    (resolvePlatforms l p).shootCooldown = p.shootCooldown := by
  unfold resolvePlatforms
  obtain ⟨h1, h2, h3, h4⟩ := foldl_landStep_frame l { p with isGrounded := false }
  exact ⟨h1, h2, h3, h4⟩

/-- The physics stage preserves everything except the player's movement state
and the tick counter. -/
lemma physicsStage_frame (E : Env) (i : InputState) (w : World) :
    (physicsStage E i w).gState = w.gState ∧
    (physicsStage E i w).bullets = w.bullets ∧
    (physicsStage E i w).enemies = w.enemies ∧
    (physicsStage E i w).particles = w.particles ∧
    (physicsStage E i w).platforms = w.platforms ∧
    (physicsStage E i w).camera = w.camera ∧
    (physicsStage E i w).player.hp = w.player.hp ∧
    (physicsStage E i w).player.score = w.player.score ∧
    (physicsStage E i w).player.invincibleTimer = w.player.invincibleTimer := by
  obtain ⟨a1, a2, a3, a4⟩ := applyInput_frame E.C i w.player
  obtain ⟨b1, b2, b3, b4⟩ :=
    integrate_frame E.C w.camera (applyInput E.C i w.player)
  obtain ⟨c1, c2, c3, c4⟩ :=
    resolvePlatforms_frame w.platforms (integrate E.C w.camera (applyInput E.C i w.player))
  exact ⟨rfl, rfl, rfl, rfl, rfl, rfl,
    c1.trans (b1.trans a1), c2.trans (b2.trans a2), c3.trans (b3.trans a3)⟩

/-- The pitfall stage is either a no-op or one death-handler call. -/
lemma pitfallStage_cases (E : Env) (w : World) :
    pitfallStage E w = w ∨ pitfallStage E w = handlePlayerDeath E w := by
  unfold pitfallStage
  split_ifs
  · right
    rfl
  · left
    rfl

/-- The shooting phase touches only the player's shootCooldown. -/
lemma shootPhase_player_frame (C : Consts) (i : InputState) (p : Player) :
    (shootPhase C i p).1.hp = p.hp ∧ (shootPhase C i p).1.score = p.score ∧
    (shootPhase C i p).1.invincibleTimer = p.invincibleTimer ∧
    (shootPhase C i p).1.x = p.x ∧ (shootPhase C i p).1.y = p.y := by
  unfold shootPhase
  dsimp only
  split_ifs <;> simp

/-- Any bullet spawned by the shooting phase has life 100. -/
lemma shootPhase_bullet_life (C : Consts) (i : InputState) (p : Player) :
    ∀ b ∈ (shootPhase C i p).2, b.life = 100 := by
  unfold shootPhase
  dsimp only
  split_ifs <;> simp

/-- The shoot stage preserves everything except the player's cooldown and the
appended bullet. -/
lemma shootStage_frame (E : Env) (i : InputState) (w : World) :
    (shootStage E i w).gState = w.gState ∧
    (shootStage E i w).enemies = w.enemies ∧
    (shootStage E i w).particles = w.particles ∧
    (shootStage E i w).platforms = w.platforms ∧
    (shootStage E i w).camera = w.camera ∧
    (shootStage E i w).tick = w.tick ∧
    (shootStage E i w).player.hp = w.player.hp ∧
    (shootStage E i w).player.score = w.player.score ∧
    (shootStage E i w).player.invincibleTimer = w.player.invincibleTimer := by
  obtain ⟨h1, h2, h3, h4, h5⟩ := shootPhase_player_frame E.C i w.player
  exact ⟨rfl, rfl, rfl, rfl, rfl, rfl, h1, h2, h3⟩

/-! ## Lemmas about the player-bullet vs enemy scan -/

/-- The enemy scan can change score, particles, and gState, but not camera,
platforms, bullets, the enemies field of the world, tick, hp, or the
invincibility timer. -/
lemma bulletHitEnemies_frame (E : Env) (b : Bullet) (w : World) (es : List Enemy) :
    (bulletHitEnemies E b w es).1.camera = w.camera ∧
    (bulletHitEnemies E b w es).1.platforms = w.platforms ∧
    (bulletHitEnemies E b w es).1.bullets = w.bullets ∧
    (bulletHitEnemies E b w es).1.enemies = w.enemies ∧
    (bulletHitEnemies E b w es).1.tick = w.tick ∧
    (bulletHitEnemies E b w es).1.player.hp = w.player.hp ∧
    (bulletHitEnemies E b w es).1.player.invincibleTimer = w.player.invincibleTimer := by
  induction es with
  | nil => simp [bulletHitEnemies]
  | cons e rest ih =>
    unfold bulletHitEnemies
    dsimp only
    split
    · split_ifs <;> simp
    · simpa using ih

/-- The enemy scan never lowers the score. -/
lemma bulletHitEnemies_score (E : Env) (b : Bullet) (w : World) (es : List Enemy) :
    w.player.score ≤ (bulletHitEnemies E b w es).1.player.score := by
  induction es with
  | nil => simp [bulletHitEnemies]
  | cons e rest ih =>
    unfold bulletHitEnemies
    dsimp only
    split
    · split_ifs <;> simp
    · simpa using ih

/-- The enemy scan either keeps the game state or sets VICTORY. -/
lemma bulletHitEnemies_gState (E : Env) (b : Bullet) (w : World) (es : List Enemy) :
    (bulletHitEnemies E b w es).1.gState = w.gState ∨
    (bulletHitEnemies E b w es).1.gState = .VICTORY := by
  induction es with
  | nil => simp [bulletHitEnemies]
  | cons e rest ih =>
    unfold bulletHitEnemies
    dsimp only
    split
    · split_ifs <;> simp
    · simpa using ih

/-- The enemy scan preserves the terminal disjunct. -/
lemma bulletHitEnemies_done (E : Env) (b : Bullet) (w : World) (es : List Enemy)
    (h : VictoryOrDead w) : VictoryOrDead (bulletHitEnemies E b w es).1 := by
  obtain ⟨h1, h2, h3, h4, h5, h6, h7⟩ := bulletHitEnemies_frame E b w es
  rcases bulletHitEnemies_gState E b w es with hg | hg
  · unfold VictoryOrDead at h ⊢
    rw [hg, h6]
    exact h
  · left
    exact hg

/-- The enemy scan cannot revive a boss, and when it newly kills one the world
it returns is already in VICTORY. -/
lemma bulletHitEnemies_boss (E : Env) (b : Bullet) (w : World) (es : List Enemy) :
    liveBossCount (bulletHitEnemies E b w es).2.1 ≤ liveBossCount es ∧
    (liveBossCount (bulletHitEnemies E b w es).2.1 < liveBossCount es →
      (bulletHitEnemies E b w es).1.gState = .VICTORY) := by
  induction es with
  | nil => simp [bulletHitEnemies]
  | cons e rest ih =>
    unfold bulletHitEnemies
    dsimp only
    split
    case isTrue hhit =>
      split_ifs with hkill hboss
      · refine ⟨?_, fun _ => rfl⟩
        simp only [liveBossCount, List.countP_cons]
        simp
      · refine ⟨?_, ?_⟩
        · simp only [liveBossCount, List.countP_cons]
          simp [hboss]
        · intro hlt
          exfalso
          simp only [liveBossCount, List.countP_cons] at hlt
          simp [hboss] at hlt
      · refine ⟨?_, ?_⟩
        · simp only [liveBossCount, List.countP_cons]
          simp
        · intro hlt
          exfalso
          simp only [liveBossCount, List.countP_cons] at hlt
          simp at hlt
    case isFalse hmiss =>
      obtain ⟨ihle, ihlt⟩ := ih
      refine ⟨?_, ?_⟩
      · simp only [liveBossCount, List.countP_cons] at ihle ⊢
        omega
      · intro hlt
        apply ihlt
        simp only [liveBossCount, List.countP_cons] at hlt ⊢
        omega

/-! ## Lemmas about single-bullet processing -/

/-- Processing one bullet never changes camera, platforms, tick, or the
bullets field of the world (the survivor is returned separately). -/
lemma processOneBullet_frame (E : Env) (w : World) (b : Bullet) :
    (processOneBullet E w b).1.camera = w.camera ∧
    (processOneBullet E w b).1.platforms = w.platforms ∧
    (processOneBullet E w b).1.tick = w.tick ∧
    (processOneBullet E w b).1.bullets = w.bullets := by
  unfold processOneBullet
  dsimp only
  split_ifs
  · exact ⟨rfl, rfl, rfl, rfl⟩
  · obtain ⟨h1, h2, h3, h4, h5, h6, h7⟩ := bulletHitEnemies_frame E _ w w.enemies
    exact ⟨h1, h2, h5, h3⟩
  · obtain ⟨h1, h2, h3, h4, h5, h6, h7⟩ := bulletHitEnemies_frame E _ w w.enemies
    exact ⟨h1, h2, h5, h3⟩
  · obtain ⟨s1, s2, s3, s4, s5, s6, s7⟩ := handlePlayerDeath_frame E w
    exact ⟨s5, s2, s6, s3⟩
  · exact ⟨rfl, rfl, rfl, rfl⟩

/-- Processing one bullet never lowers the score. -/
lemma processOneBullet_score (E : Env) (w : World) (b : Bullet) :
    w.player.score ≤ (processOneBullet E w b).1.player.score := by
  unfold processOneBullet
  dsimp only
  split_ifs
  · exact le_refl _
  · exact bulletHitEnemies_score E _ w w.enemies
  · exact bulletHitEnemies_score E _ w w.enemies
  · exact le_of_eq ((handlePlayerDeath_frame E w).1).symm
  · exact le_refl _

/-- Processing one bullet never raises hp. -/
lemma processOneBullet_hp_mono (E : Env) (w : World) (b : Bullet) :
    (processOneBullet E w b).1.player.hp ≤ w.player.hp := by
  unfold processOneBullet
  dsimp only
  split_ifs
  · exact le_refl _
  · exact le_of_eq (bulletHitEnemies_frame E _ w w.enemies).2.2.2.2.2.1
  · exact le_of_eq (bulletHitEnemies_frame E _ w w.enemies).2.2.2.2.2.1
  · exact handlePlayerDeath_hp_mono E w
  · exact le_refl _

/-- While the player is invincible, bullet processing touches neither hp nor
the invincibility timer. -/
lemma processOneBullet_invincible (E : Env) (w : World) (b : Bullet)
    (h : w.player.invincibleTimer > 0) :
    (processOneBullet E w b).1.player.hp = w.player.hp ∧
    (processOneBullet E w b).1.player.invincibleTimer = w.player.invincibleTimer := by
  unfold processOneBullet
  dsimp only
  split_ifs with h1 h2 h3 h4
  · exact ⟨rfl, rfl⟩
  · obtain ⟨g1, g2, g3, g4, g5, g6, g7⟩ := bulletHitEnemies_frame E _ w w.enemies
    exact ⟨g6, g7⟩
  · obtain ⟨g1, g2, g3, g4, g5, g6, g7⟩ := bulletHitEnemies_frame E _ w w.enemies
    exact ⟨g6, g7⟩
  · exact absurd h4.2 (not_le.mpr h)
  · exact ⟨rfl, rfl⟩

/-- Processing one bullet keeps a non-negative invincibility timer
non-negative. -/
lemma processOneBullet_timer_nonneg (E : Env) (w : World) (b : Bullet)
    (h : 0 ≤ w.player.invincibleTimer) :
    0 ≤ (processOneBullet E w b).1.player.invincibleTimer := by
  unfold processOneBullet
  dsimp only
  split_ifs
  · exact h
  · rw [(bulletHitEnemies_frame E _ w w.enemies).2.2.2.2.2.2]
    exact h
  · rw [(bulletHitEnemies_frame E _ w w.enemies).2.2.2.2.2.2]
    exact h
  · exact handlePlayerDeath_timer_nonneg E w h
  · exact h

/-- Processing one bullet preserves the terminal disjunct. -/
lemma processOneBullet_done (E : Env) (w : World) (b : Bullet)
    (h : VictoryOrDead w) : VictoryOrDead (processOneBullet E w b).1 := by
  unfold processOneBullet
  dsimp only
  split_ifs
  · exact h
  · exact bulletHitEnemies_done E _ w w.enemies h
  · exact bulletHitEnemies_done E _ w w.enemies h
  · exact handlePlayerDeath_done E w h
  · exact h

/-- Processing one bullet cannot revive a boss, and when it newly kills one
the resulting world satisfies the terminal disjunct (it is in VICTORY). -/
lemma processOneBullet_boss (E : Env) (w : World) (b : Bullet) :
    liveBossCount (processOneBullet E w b).1.enemies ≤ liveBossCount w.enemies ∧
    (liveBossCount (processOneBullet E w b).1.enemies < liveBossCount w.enemies →
      VictoryOrDead (processOneBullet E w b).1) := by
  unfold processOneBullet
  dsimp only
  split_ifs
  · exact ⟨le_refl _, fun hlt => absurd hlt (lt_irrefl _)⟩
  · obtain ⟨hle, hlt⟩ := bulletHitEnemies_boss E _ w w.enemies
    exact ⟨hle, fun hd => Or.inl (hlt hd)⟩
  · obtain ⟨hle, hlt⟩ := bulletHitEnemies_boss E _ w w.enemies
    exact ⟨hle, fun hd => Or.inl (hlt hd)⟩
  · rw [(handlePlayerDeath_frame E w).2.2.2.1]
    exact ⟨le_refl _, fun hlt => absurd hlt (lt_irrefl _)⟩
  · exact ⟨le_refl _, fun hlt => absurd hlt (lt_irrefl _)⟩

/-- A surviving bullet never has negative life: survivors of the sweep have
positive life, except a hit-killed bullet which is kept with life exactly 0. -/
lemma processOneBullet_life (E : Env) (w : World) (b : Bullet) :
    ∀ b1, (processOneBullet E w b).2 = some b1 → 0 ≤ b1.life := by
  unfold processOneBullet
  dsimp only
  split_ifs with h1 h2 h3 h4
  · intro b1 hb
    simp at hb
  · intro b1 hb
    rw [Option.some_inj] at hb
    subst hb
    norm_num
  · intro b1 hb
    rw [Option.some_inj] at hb
    subst hb
    push_neg at h1
    dsimp only
    linarith [h1.1]
  · intro b1 hb
    rw [Option.some_inj] at hb
    subst hb
    norm_num
  · intro b1 hb
    rw [Option.some_inj] at hb
    subst hb
    push_neg at h1
    dsimp only
    linarith [h1.1]

/-- A bullet that enters the sweep with non-positive life is removed before
any collision test. -/
lemma processOneBullet_none (E : Env) (w : World) (b : Bullet) (h : b.life ≤ 0) :
    (processOneBullet E w b).2 = none := by
  unfold processOneBullet
  dsimp only
  rw [if_pos (Or.inl (show b.life - 1 ≤ 0 by linarith))]

/-! ## Lemmas about the bullets loop and bullets phase -/

/-- The bullets loop never changes camera, platforms, tick, or the bullets
field of the threaded world. -/
lemma bulletLoop_frame (E : Env) (bs : List Bullet) (w : World) :
    (bulletLoop E bs w).1.camera = w.camera ∧
    (bulletLoop E bs w).1.platforms = w.platforms ∧
    (bulletLoop E bs w).1.tick = w.tick ∧
    (bulletLoop E bs w).1.bullets = w.bullets := by
  induction bs with
  | nil => exact ⟨rfl, rfl, rfl, rfl⟩
  | cons b rest ih =>
    obtain ⟨i1, i2, i3, i4⟩ := ih
    obtain ⟨p1, p2, p3, p4⟩ := processOneBullet_frame E (bulletLoop E rest w).1 b
    exact ⟨p1.trans i1, p2.trans i2, p3.trans i3, p4.trans i4⟩

/-- The bullets loop never lowers the score. -/
lemma bulletLoop_score (E : Env) (bs : List Bullet) (w : World) :
    w.player.score ≤ (bulletLoop E bs w).1.player.score := by
  induction bs with
  | nil => exact le_refl _
  | cons b rest ih =>
    exact ih.trans (processOneBullet_score E (bulletLoop E rest w).1 b)

/-- The bullets loop never raises hp. -/
lemma bulletLoop_hp_mono (E : Env) (bs : List Bullet) (w : World) :
    (bulletLoop E bs w).1.player.hp ≤ w.player.hp := by
  induction bs with
  | nil => exact le_refl _
  | cons b rest ih =>
    exact (processOneBullet_hp_mono E (bulletLoop E rest w).1 b).trans ih

/-- While the player is invincible, the bullets loop touches neither hp nor
the timer. -/
lemma bulletLoop_invincible (E : Env) (bs : List Bullet) (w : World)
    (h : w.player.invincibleTimer > 0) :
    (bulletLoop E bs w).1.player.hp = w.player.hp ∧
    (bulletLoop E bs w).1.player.invincibleTimer = w.player.invincibleTimer := by
  induction bs with
  | nil => exact ⟨rfl, rfl⟩
  | cons b rest ih =>
    obtain ⟨i1, i2⟩ := ih
    obtain ⟨p1, p2⟩ := processOneBullet_invincible E (bulletLoop E rest w).1 b
      (by rw [i2]; exact h)
    exact ⟨p1.trans i1, p2.trans i2⟩

/-- The bullets loop keeps a non-negative invincibility timer non-negative. -/
lemma bulletLoop_timer_nonneg (E : Env) (bs : List Bullet) (w : World)
    (h : 0 ≤ w.player.invincibleTimer) :
    0 ≤ (bulletLoop E bs w).1.player.invincibleTimer := by
  induction bs with
  | nil => exact h
  | cons b rest ih =>
    exact processOneBullet_timer_nonneg E (bulletLoop E rest w).1 b ih

/-- The bullets loop preserves the terminal disjunct. -/
lemma bulletLoop_done (E : Env) (bs : List Bullet) (w : World)
    (h : VictoryOrDead w) : VictoryOrDead (bulletLoop E bs w).1 := by
  induction bs with
  | nil => exact h
  | cons b rest ih =>
    exact processOneBullet_done E (bulletLoop E rest w).1 b ih

/-- The bullets loop cannot revive a boss, and when it newly kills one the
resulting world satisfies the terminal disjunct. -/
lemma bulletLoop_boss (E : Env) (bs : List Bullet) (w : World) :
    liveBossCount (bulletLoop E bs w).1.enemies ≤ liveBossCount w.enemies ∧
    (liveBossCount (bulletLoop E bs w).1.enemies < liveBossCount w.enemies →
      VictoryOrDead (bulletLoop E bs w).1) := by
  induction bs with
  | nil => exact ⟨le_refl _, fun hlt => absurd hlt (lt_irrefl _)⟩
  | cons b rest ih =>
    obtain ⟨ile, ilt⟩ := ih
    obtain ⟨ple, plt⟩ := processOneBullet_boss E (bulletLoop E rest w).1 b
    unfold bulletLoop
    dsimp only
    refine ⟨ple.trans ile, fun hlt => ?_⟩
    by_cases hc : liveBossCount (processOneBullet E (bulletLoop E rest w).1 b).1.enemies <
        liveBossCount (bulletLoop E rest w).1.enemies
    · exact plt hc
    · have : liveBossCount (bulletLoop E rest w).1.enemies < liveBossCount w.enemies := by
        omega
      exact processOneBullet_done E (bulletLoop E rest w).1 b (ilt this)

/-- Every bullet surviving the bullets loop has non-negative life. -/
lemma bulletLoop_life (E : Env) (bs : List Bullet) (w : World) :
    ∀ b1 ∈ (bulletLoop E bs w).2, 0 ≤ b1.life := by
  induction bs with
  | nil => intro b1 hb; simp [bulletLoop] at hb
  | cons b rest ih =>
    intro b1 hb
    unfold bulletLoop at hb
    dsimp only at hb
    rcases ho : (processOneBullet E (bulletLoop E rest w).1 b).2 with _ | b2
    · rw [ho] at hb
      exact ih b1 hb
    · rw [ho] at hb
      rcases List.mem_cons.mp hb with hb1 | hb1
      · subst hb1
        exact processOneBullet_life E (bulletLoop E rest w).1 b b1 ho
      · exact ih b1 hb1

/-- The bullets phase never changes camera, platforms, or tick. -/
lemma bulletPhase_frame (E : Env) (w : World) :
    (bulletPhase E w).camera = w.camera ∧
    (bulletPhase E w).platforms = w.platforms ∧
    (bulletPhase E w).tick = w.tick := by
  obtain ⟨h1, h2, h3, h4⟩ := bulletLoop_frame E w.bullets w
  exact ⟨h1, h2, h3⟩

/-- The bullets phase never lowers the score. -/
lemma bulletPhase_score (E : Env) (w : World) :
    w.player.score ≤ (bulletPhase E w).player.score :=
  bulletLoop_score E w.bullets w

/-- The bullets phase never raises hp. -/
lemma bulletPhase_hp_mono (E : Env) (w : World) :
    (bulletPhase E w).player.hp ≤ w.player.hp :=
  bulletLoop_hp_mono E w.bullets w

/-- While the player is invincible, the bullets phase touches neither hp nor
the timer. -/
lemma bulletPhase_invincible (E : Env) (w : World)
    (h : w.player.invincibleTimer > 0) :
    (bulletPhase E w).player.hp = w.player.hp ∧
    (bulletPhase E w).player.invincibleTimer = w.player.invincibleTimer :=
  bulletLoop_invincible E w.bullets w h

/-- The bullets phase keeps a non-negative invincibility timer non-negative. -/
lemma bulletPhase_timer_nonneg (E : Env) (w : World)
    (h : 0 ≤ w.player.invincibleTimer) :
    0 ≤ (bulletPhase E w).player.invincibleTimer :=
  bulletLoop_timer_nonneg E w.bullets w h

/-- The bullets phase preserves the terminal disjunct. -/
lemma bulletPhase_done (E : Env) (w : World) (h : VictoryOrDead w) :
    VictoryOrDead (bulletPhase E w) :=
  bulletLoop_done E w.bullets w h

/-- The bullets phase cannot revive a boss, and when it newly kills one the
resulting world satisfies the terminal disjunct. -/
lemma bulletPhase_boss (E : Env) (w : World) :
    liveBossCount (bulletPhase E w).enemies ≤ liveBossCount w.enemies ∧
    (liveBossCount (bulletPhase E w).enemies < liveBossCount w.enemies →
      VictoryOrDead (bulletPhase E w)) :=
  bulletLoop_boss E w.bullets w

/-- Every bullet in the collection after the bullets phase has non-negative
life. -/
lemma bulletPhase_life (E : Env) (w : World) :
    ∀ b1 ∈ (bulletPhase E w).bullets, 0 ≤ b1.life :=
  bulletLoop_life E w.bullets w

/-! ## Lemmas about the enemies loop and enemies phase -/

/-- The floor-clamp body touches only y. -/
lemma clampStep_frame (e : Enemy) (plat : Platform) :
    (clampStep e plat).isDead = e.isDead ∧ (clampStep e plat).type = e.type ∧
    (clampStep e plat).hp = e.hp ∧
    (clampStep e plat).shootCooldown = e.shootCooldown := by
  unfold clampStep
  split_ifs <;> simp

/-- The floor clamp touches only y. -/
lemma enemyFloorClamp_frame (l : List Platform) (e : Enemy) :
    (enemyFloorClamp l e).isDead = e.isDead ∧ (enemyFloorClamp l e).type = e.type ∧
    (enemyFloorClamp l e).hp = e.hp ∧
    (enemyFloorClamp l e).shootCooldown = e.shootCooldown := by
  unfold enemyFloorClamp
  induction l generalizing e with
  | nil => exact ⟨rfl, rfl, rfl, rfl⟩
  | cons a l ih =>
    rw [List.foldl_cons]
    obtain ⟨i1, i2, i3, i4⟩ := ih (clampStep e a)
    obtain ⟨c1, c2, c3, c4⟩ := clampStep_frame e a
    exact ⟨i1.trans c1, i2.trans c2, i3.trans c3, i4.trans c4⟩

/-- One enemy iteration leaves the world unchanged or performs exactly one
death-handler call (touch damage). -/
lemma enemyStep_world (E : Env) (w : World) (e : Enemy) :
    (enemyStep E w e).1 = w ∨ (enemyStep E w e).1 = handlePlayerDeath E w := by
  unfold enemyStep
  dsimp only
  split_ifs <;> first | exact Or.inl rfl | exact Or.inr rfl

/-- The runner movement never changes the enemy's isDead flag or type. -/
lemma runnerMove_frame (E : Env) (player : Player) (platforms : List Platform)
    (e : Enemy) :
    (runnerMove E player platforms e).isDead = e.isDead ∧
    (runnerMove E player platforms e).type = e.type := by
  unfold runnerMove
  dsimp only
  split_ifs <;>
    first
      | exact ⟨rfl, rfl⟩
      | exact ⟨(enemyFloorClamp_frame platforms _).1,
          (enemyFloorClamp_frame platforms _).2.1⟩

/-- The runner movement is the identity on turret and boss enemies. -/
lemma runnerMove_skip (E : Env) (player : Player) (platforms : List Platform)
    (e : Enemy) (h : ¬ e.type = .runner) :
    runnerMove E player platforms e = e := by
  unfold runnerMove
  rw [if_neg h]

/-- Fire-control never changes the enemy's isDead flag or type. -/
lemma enemyShoot_frame (E : Env) (player : Player) (e : Enemy) :
    (enemyShoot E player e).1.isDead = e.isDead ∧
    (enemyShoot E player e).1.type = e.type := by
  unfold enemyShoot
  dsimp only
  split_ifs <;> exact ⟨rfl, rfl⟩

/-- Every bullet spawned by fire-control has life 200. -/
lemma enemyShoot_bullets_life (E : Env) (player : Player) (e : Enemy) :
    ∀ b ∈ (enemyShoot E player e).2, b.life = 200 := by
  unfold enemyShoot
  dsimp only
  split_ifs <;> intro b hb <;>
    first
      | exact absurd hb (List.not_mem_nil b)
      | (rw [List.mem_singleton] at hb
         subst hb
         rfl)

/-- A firing turret or boss spawns exactly the aimed bullet and resets its
cooldown to 120. -/
lemma enemyShoot_fire (E : Env) (player : Player) (e1 : Enemy)
    (h1 : e1.type = .turret ∨ e1.type = .boss)
    (h2 : e1.shootCooldown - 1 ≤ 0) :
    enemyShoot E player e1 =
      ({ e1 with shootCooldown := 120 },
        [enemyBullet E player { e1 with shootCooldown := e1.shootCooldown - 1 }]) := by
  unfold enemyShoot
  dsimp only
  rw [if_pos h1, if_pos (show e1.shootCooldown - 1 ≤ 0 from h2)]

/-- Without both the type gate and an expired cooldown, no bullet spawns. -/
lemma enemyShoot_no_fire (E : Env) (player : Player) (e1 : Enemy)
    (h : ¬((e1.type = .turret ∨ e1.type = .boss) ∧ e1.shootCooldown - 1 ≤ 0)) :
    (enemyShoot E player e1).2 = [] := by
  unfold enemyShoot
  dsimp only
  split_ifs with h1 h2
  · exact absurd ⟨h1, h2⟩ h
  · rfl
  · rfl

/-- The activation block never changes the enemy's isDead flag or type. -/
lemma enemyAct_flags (E : Env) (player : Player) (platforms : List Platform)
    (e : Enemy) :
    (enemyAct E player platforms e).1.isDead = e.isDead ∧
    (enemyAct E player platforms e).1.type = e.type := by
  unfold enemyAct
  split_ifs with h1
  · obtain ⟨r1, r2⟩ := runnerMove_frame E player platforms e
    obtain ⟨s1, s2⟩ := enemyShoot_frame E player (runnerMove E player platforms e)
    exact ⟨s1.trans r1, s2.trans r2⟩
  · exact ⟨rfl, rfl⟩

/-- Every bullet spawned by the activation block has life 200. -/
lemma enemyAct_bullets_life (E : Env) (player : Player)
    (platforms : List Platform) (e : Enemy) :
    ∀ b ∈ (enemyAct E player platforms e).2, b.life = 200 := by
  unfold enemyAct
  split_ifs with h1
  · exact enemyShoot_bullets_life E player (runnerMove E player platforms e)
  · intro b hb
    exact absurd hb (List.not_mem_nil b)

/-- One enemy iteration never changes the enemy's isDead flag or type. -/
lemma enemyStep_flags (E : Env) (w : World) (e : Enemy) :
    (enemyStep E w e).2.1.isDead = e.isDead ∧
    (enemyStep E w e).2.1.type = e.type := by
  unfold enemyStep
  dsimp only
  split_ifs <;>
    first
      | exact ⟨rfl, rfl⟩
      | exact enemyAct_flags E w.player w.platforms e

/-- Every bullet spawned by one enemy iteration has life 200. -/
lemma enemyStep_bullets_life (E : Env) (w : World) (e : Enemy) :
    ∀ b ∈ (enemyStep E w e).2.2, b.life = 200 := by
  unfold enemyStep
  dsimp only
  split_ifs <;>
    first
      | (intro b hb
         exact absurd hb (List.not_mem_nil b))
      | exact enemyAct_bullets_life E w.player w.platforms e

/-- World effect of one enemy iteration, by components. -/
lemma enemyStep_frame (E : Env) (w : World) (e : Enemy) :
    (enemyStep E w e).1.camera = w.camera ∧
    (enemyStep E w e).1.platforms = w.platforms ∧
    (enemyStep E w e).1.tick = w.tick ∧
    (enemyStep E w e).1.bullets = w.bullets ∧
    (enemyStep E w e).1.enemies = w.enemies ∧
    (enemyStep E w e).1.player.score = w.player.score := by
  rcases enemyStep_world E w e with h | h <;> rw [h]
  · exact ⟨rfl, rfl, rfl, rfl, rfl, rfl⟩
  · obtain ⟨s1, s2, s3, s4, s5, s6, _⟩ := handlePlayerDeath_frame E w
    exact ⟨s5, s2, s6, s3, s4, s1⟩

/-- The enemies loop never changes camera, platforms, tick, bullets, the
enemies field of the threaded world, or the score. -/
lemma enemyLoop_frame (E : Env) (w : World) (es : List Enemy) :
    (enemyLoop E w es).1.camera = w.camera ∧
    (enemyLoop E w es).1.platforms = w.platforms ∧
    (enemyLoop E w es).1.tick = w.tick ∧
    (enemyLoop E w es).1.bullets = w.bullets ∧
    (enemyLoop E w es).1.enemies = w.enemies ∧
    (enemyLoop E w es).1.player.score = w.player.score := by
  induction es generalizing w with
  | nil => exact ⟨rfl, rfl, rfl, rfl, rfl, rfl⟩
  | cons e rest ih =>
    unfold enemyLoop
    dsimp only
    obtain ⟨i1, i2, i3, i4, i5, i6⟩ := ih (enemyStep E w e).1
    obtain ⟨f1, f2, f3, f4, f5, f6⟩ := enemyStep_frame E w e
    exact ⟨i1.trans f1, i2.trans f2, i3.trans f3, i4.trans f4, i5.trans f5, i6.trans f6⟩

/-- The enemies loop never raises hp. -/
lemma enemyLoop_hp_mono (E : Env) (w : World) (es : List Enemy) :
    (enemyLoop E w es).1.player.hp ≤ w.player.hp := by
  induction es generalizing w with
  | nil => exact le_refl _
  | cons e rest ih =>
    unfold enemyLoop
    dsimp only
    have hstep : (enemyStep E w e).1.player.hp ≤ w.player.hp := by
      rcases enemyStep_world E w e with hw | hw <;> rw [hw]
      exact handlePlayerDeath_hp_mono E w
    exact le_trans (ih (enemyStep E w e).1) hstep

/-- While the player is invincible the enemies loop leaves the world alone. -/
lemma enemyLoop_invincible (E : Env) (w : World) (es : List Enemy)
    (h : w.player.invincibleTimer > 0) :
    (enemyLoop E w es).1 = w := by
  induction es generalizing w with
  | nil => rfl
  | cons e rest ih =>
    unfold enemyLoop
    dsimp only
    have hw : (enemyStep E w e).1 = w := by
      rcases enemyStep_world E w e with hw | hw
      · exact hw
      · rw [hw, handlePlayerDeath_of_invincible E w h]
    rw [hw, ih w h]

/-- The enemies loop keeps a non-negative invincibility timer non-negative. -/
lemma enemyLoop_timer_nonneg (E : Env) (w : World) (es : List Enemy)
    (h : 0 ≤ w.player.invincibleTimer) :
    0 ≤ (enemyLoop E w es).1.player.invincibleTimer := by
  induction es generalizing w with
  | nil => exact h
  | cons e rest ih =>
    unfold enemyLoop
    dsimp only
    apply ih
    rcases enemyStep_world E w e with hw | hw <;> rw [hw]
    · exact h
    · exact handlePlayerDeath_timer_nonneg E w h

/-- The enemies loop preserves the terminal disjunct. -/
lemma enemyLoop_done (E : Env) (w : World) (es : List Enemy)
    (h : VictoryOrDead w) : VictoryOrDead (enemyLoop E w es).1 := by
  induction es generalizing w with
  | nil => exact h
  | cons e rest ih =>
    unfold enemyLoop
    dsimp only
    apply ih
    rcases enemyStep_world E w e with hw | hw <;> rw [hw]
    · exact h
    · exact handlePlayerDeath_done E w h

/-- The enemies loop neither kills nor revives any enemy: the live-boss count
of the output list equals that of the input list. -/
lemma enemyLoop_boss (E : Env) (w : World) (es : List Enemy) :
    liveBossCount (enemyLoop E w es).2.1 = liveBossCount es := by
  induction es generalizing w with
  | nil => rfl
  | cons e rest ih =>
    unfold enemyLoop
    dsimp only
    simp only [liveBossCount, List.countP_cons]
    have hih := ih (enemyStep E w e).1
    simp only [liveBossCount] at hih
    rw [hih]
    obtain ⟨f1, f2⟩ := enemyStep_flags E w e
    rw [f1, f2]

/-- Every bullet pushed by the enemies loop has life 200. -/
lemma enemyLoop_bullets_life (E : Env) (w : World) (es : List Enemy) :
    ∀ b ∈ (enemyLoop E w es).2.2, b.life = 200 := by
  induction es generalizing w with
  | nil =>
    intro b hb
    exact absurd hb (List.not_mem_nil b)
  | cons e rest ih =>
    intro b hb
    unfold enemyLoop at hb
    dsimp only at hb
    rcases List.mem_append.mp hb with hb1 | hb1
    · exact enemyStep_bullets_life E w e b hb1
    · exact ih (enemyStep E w e).1 b hb1

/-- The enemies phase never changes camera, platforms, tick, or score. -/
lemma enemyPhase_frame (E : Env) (w : World) :
    (enemyPhase E w).camera = w.camera ∧
    (enemyPhase E w).platforms = w.platforms ∧
    (enemyPhase E w).tick = w.tick ∧
    (enemyPhase E w).player.score = w.player.score := by
  obtain ⟨h1, h2, h3, h4, h5, h6⟩ := enemyLoop_frame E w w.enemies
  exact ⟨h1, h2, h3, h6⟩

/-- The enemies phase never raises hp. -/
lemma enemyPhase_hp_mono (E : Env) (w : World) :
    (enemyPhase E w).player.hp ≤ w.player.hp :=
  enemyLoop_hp_mono E w w.enemies

/-- While the player is invincible the enemies phase leaves the player
alone. -/
lemma enemyPhase_invincible (E : Env) (w : World)
    (h : w.player.invincibleTimer > 0) :
    (enemyPhase E w).player = w.player := by
  unfold enemyPhase
  dsimp only
  rw [enemyLoop_invincible E w w.enemies h]

/-- The enemies phase keeps a non-negative invincibility timer non-negative. -/
lemma enemyPhase_timer_nonneg (E : Env) (w : World)
    (h : 0 ≤ w.player.invincibleTimer) :
    0 ≤ (enemyPhase E w).player.invincibleTimer :=
  enemyLoop_timer_nonneg E w w.enemies h

/-- The enemies phase preserves the terminal disjunct. -/
lemma enemyPhase_done (E : Env) (w : World) (h : VictoryOrDead w) :
    VictoryOrDead (enemyPhase E w) :=
  enemyLoop_done E w w.enemies h

/-- The enemies phase preserves the live-boss count. -/
lemma enemyPhase_boss (E : Env) (w : World) :
    liveBossCount (enemyPhase E w).enemies = liveBossCount w.enemies :=
  enemyLoop_boss E w w.enemies

/-- If every bullet before the enemies phase has non-negative life, so does
every bullet after it (enemy-spawned bullets start at life 200). -/
lemma enemyPhase_life (E : Env) (w : World)
    (h : ∀ b ∈ w.bullets, 0 ≤ b.life) :
    ∀ b ∈ (enemyPhase E w).bullets, 0 ≤ b.life := by
  intro b hb
  unfold enemyPhase at hb
  dsimp only at hb
  rcases List.mem_append.mp hb with hb1 | hb1
  · apply h
    rwa [(enemyLoop_frame E w w.enemies).2.2.2.1] at hb1
  · rw [enemyLoop_bullets_life E w w.enemies b hb1]
    norm_num

/-! ## Lemmas about the trailing phases and the whole step -/

/-- The particles phase touches only the particle collection. -/
lemma particlePhase_frame (w : World) :
    (particlePhase w).gState = w.gState ∧ (particlePhase w).player = w.player ∧
    (particlePhase w).bullets = w.bullets ∧ (particlePhase w).enemies = w.enemies ∧
    (particlePhase w).platforms = w.platforms ∧ (particlePhase w).camera = w.camera ∧
    (particlePhase w).tick = w.tick :=
  ⟨rfl, rfl, rfl, rfl, rfl, rfl, rfl⟩

/-- Starting at or below the clamp bound, the camera never exceeds it. -/
lemma cameraPhase_le_max_of_le (C : Consts) (px cam : ℚ)
    (h : cam ≤ C.LEVEL_LENGTH - C.CANVAS_WIDTH) :
    cameraPhase C px cam ≤ C.LEVEL_LENGTH - C.CANVAS_WIDTH := by
  unfold cameraPhase
  dsimp only
  split_ifs <;> linarith

/-- Starting at or below the clamp bound, the camera never retreats. -/
lemma cameraPhase_mono (C : Consts) (px cam : ℚ)
    (h : cam ≤ C.LEVEL_LENGTH - C.CANVAS_WIDTH) :
    cam ≤ cameraPhase C px cam := by
  unfold cameraPhase
  dsimp only
  split_ifs <;> linarith

/-- The camera never becomes negative when the clamp bound is non-negative. -/
lemma cameraPhase_nonneg (C : Consts) (px cam : ℚ) (h0 : 0 ≤ cam)
    (hM : 0 ≤ C.LEVEL_LENGTH - C.CANVAS_WIDTH) :
    0 ≤ cameraPhase C px cam := by
  unfold cameraPhase
  dsimp only
  split_ifs <;> linarith

/-- When the camera moves at all, the player had crossed the forward offset
and the new value is the follow target clamped to the level bound. -/
lemma cameraPhase_advance (C : Consts) (px cam : ℚ)
    (h : cam ≤ C.LEVEL_LENGTH - C.CANVAS_WIDTH)
    (hne : cameraPhase C px cam ≠ cam) :
    px > cam + C.CAMERA_OFFSET_X ∧
    cameraPhase C px cam =
      min (px - C.CAMERA_OFFSET_X) (C.LEVEL_LENGTH - C.CANVAS_WIDTH) := by
  unfold cameraPhase at hne ⊢
  dsimp only at hne ⊢
  split_ifs at hne ⊢ with h1 h2 h3
  · exact ⟨h1, (min_eq_right h2.le).symm⟩
  · exact ⟨h1, (min_eq_left (not_lt.mp h2)).symm⟩
  · exfalso
    linarith
  · exact absurd rfl hne

/-- The invincibility countdown touches only the timer. -/
lemma invincibilityPhase_frame (p : Player) :
    (invincibilityPhase p).hp = p.hp ∧ (invincibilityPhase p).score = p.score := by
  unfold invincibilityPhase
  split_ifs <;> simp

/-- The invincibility countdown keeps a whole-number timer whole and
non-negative: only a strictly positive timer is decremented. -/
lemma invincibilityPhase_timerNat (p : Player)
    (h : ∃ n : ℕ, p.invincibleTimer = (n : ℚ)) :
    ∃ n : ℕ, (invincibilityPhase p).invincibleTimer = (n : ℚ) := by
  obtain ⟨n, hn⟩ := h
  unfold invincibilityPhase
  split_ifs with h1
  · refine ⟨n - 1, ?_⟩
    show p.invincibleTimer - 1 = ((n - 1 : ℕ) : ℚ)
    rw [hn] at h1 ⊢
    have hn1 : 1 ≤ n := by
      by_contra hc
      push_neg at hc
      interval_cases n
      · norm_num at h1
    rw [Nat.cast_sub hn1]
    norm_num
  · exact ⟨n, hn⟩

/-- The invincibility stage preserves the terminal disjunct. -/
lemma invincibilityStage_done (w : World) (h : VictoryOrDead w) :
    VictoryOrDead (invincibilityStage w) := by
  unfold VictoryOrDead at h ⊢
  have hhp : (invincibilityStage w).player.hp = w.player.hp :=
    (invincibilityPhase_frame w.player).1
  have hgs : (invincibilityStage w).gState = w.gState := rfl
  rw [hhp, hgs]
  exact h

/-- Outside the PLAYING state the step is a strict no-op. -/
lemma update_not_playing (E : Env) (i : InputState) (w : World)
    (h : w.gState ≠ .PLAYING) : update E i w = w := by
  unfold update
  rw [if_pos h]

/-- The score never decreases across a step. -/
lemma update_score_mono (E : Env) (i : InputState) (w : World) :
    w.player.score ≤ (update E i w).player.score := by
  unfold update
  split_ifs with hg
  · exact le_refl _
  · set w1 := physicsStage E i w with hw1
    set w2 := pitfallStage E w1 with hw2
    set w3 := shootStage E i w2 with hw3
    set w4 := bulletPhase E w3 with hw4
    set w5 := enemyPhase E w4 with hw5
    have h1 : w1.player.score = w.player.score :=
      (physicsStage_frame E i w).2.2.2.2.2.2.2.1
    have h2 : w2.player.score = w1.player.score := by
      rw [hw2]
      rcases pitfallStage_cases E w1 with h | h <;> rw [h]
      exact (handlePlayerDeath_frame E w1).1
    have h3 : w3.player.score = w2.player.score :=
      (shootStage_frame E i w2).2.2.2.2.2.2.2.1
    have h4 : w3.player.score ≤ w4.player.score := bulletPhase_score E w3
    have h5 : w5.player.score = w4.player.score := (enemyPhase_frame E w4).2.2.2
    have h6 : (invincibilityStage (cameraStage E (particlePhase w5))).player.score
        = w5.player.score :=
      (invincibilityPhase_frame (cameraStage E (particlePhase w5)).player).2
    rw [h6]
    linarith

/-- While the player starts a step invincible, hp is untouched by the step. -/
lemma update_hp_invincible (E : Env) (i : InputState) (w : World)
    (hinv : w.player.invincibleTimer > 0) :
    (update E i w).player.hp = w.player.hp := by
  unfold update
  split_ifs with hg
  · rfl
  · set w1 := physicsStage E i w with hw1
    set w2 := pitfallStage E w1 with hw2
    set w3 := shootStage E i w2 with hw3
    set w4 := bulletPhase E w3 with hw4
    set w5 := enemyPhase E w4 with hw5
    have h1hp : w1.player.hp = w.player.hp :=
      (physicsStage_frame E i w).2.2.2.2.2.2.1
    have h1t : w1.player.invincibleTimer = w.player.invincibleTimer :=
      (physicsStage_frame E i w).2.2.2.2.2.2.2.2
    have h2 : w2 = w1 := by
      rw [hw2]
      rcases pitfallStage_cases E w1 with h | h <;> rw [h]
      exact handlePlayerDeath_of_invincible E w1 (by rw [h1t]; exact hinv)
    have h3hp : w3.player.hp = w2.player.hp :=
      (shootStage_frame E i w2).2.2.2.2.2.2.1
    have h3t : w3.player.invincibleTimer = w2.player.invincibleTimer :=
      (shootStage_frame E i w2).2.2.2.2.2.2.2.2
    have h3pos : w3.player.invincibleTimer > 0 := by
      rw [h3t, h2, h1t]
      exact hinv
    obtain ⟨h4hp, h4t⟩ := bulletPhase_invincible E w3 h3pos
    have h4pos : w4.player.invincibleTimer > 0 := by
      rw [hw4, h4t]
      exact h3pos
    have h5p : w5.player = w4.player := by
      rw [hw5]
      exact enemyPhase_invincible E w4 h4pos
    have h6 : (invincibilityStage (cameraStage E (particlePhase w5))).player.hp
        = w5.player.hp :=
      (invincibilityPhase_frame (cameraStage E (particlePhase w5)).player).1
    rw [h6, h5p]
    rw [← hw4] at h4hp
    rw [h4hp, h3hp, h2, h1hp]

/-- Camera facts across a step: starting inside the legal range with a
non-negative range bound, the camera never retreats and stays in range. -/
lemma update_camera (E : Env) (i : InputState) (w : World)
    (hM : 0 ≤ E.C.LEVEL_LENGTH - E.C.CANVAS_WIDTH)
    (h0 : 0 ≤ w.camera) (h1 : w.camera ≤ E.C.LEVEL_LENGTH - E.C.CANVAS_WIDTH) :
    w.camera ≤ (update E i w).camera ∧ 0 ≤ (update E i w).camera ∧
    (update E i w).camera ≤ E.C.LEVEL_LENGTH - E.C.CANVAS_WIDTH := by
  unfold update
  split_ifs with hg
  · exact ⟨le_refl _, h0, h1⟩
  · set w1 := physicsStage E i w with hw1
    set w2 := pitfallStage E w1 with hw2
    set w3 := shootStage E i w2 with hw3
    set w4 := bulletPhase E w3 with hw4
    set w5 := enemyPhase E w4 with hw5
    set w6 := particlePhase w5 with hw6
    have hc1 : w1.camera = w.camera := (physicsStage_frame E i w).2.2.2.2.2.1
    have hc2 : w2.camera = w1.camera := by
      rw [hw2]
      rcases pitfallStage_cases E w1 with hc | hc <;> rw [hc]
      exact (handlePlayerDeath_frame E w1).2.2.2.2.1
    have hc3 : w3.camera = w2.camera := (shootStage_frame E i w2).2.2.2.2.1
    have hc4 : w4.camera = w3.camera := by
      rw [hw4]
      exact (bulletPhase_frame E w3).1
    have hc5 : w5.camera = w4.camera := by
      rw [hw5]
      exact (enemyPhase_frame E w4).1
    have hc6 : w6.camera = w.camera := by
      rw [hw6]
      show w5.camera = w.camera
      rw [hc5, hc4, hc3, hc2, hc1]
    have hfin : (invincibilityStage (cameraStage E w6)).camera
        = cameraPhase E.C w6.player.x w6.camera := rfl
    rw [hfin, hc6]
    exact ⟨cameraPhase_mono E.C w6.player.x w.camera h1,
      cameraPhase_nonneg E.C w6.player.x w.camera h0 hM,
      cameraPhase_le_max_of_le E.C w6.player.x w.camera h1⟩

/-- If a live boss of the incoming world is dead after the step, the step ends
in VICTORY or in GAME_OVER with exhausted hp. -/
lemma update_boss (E : Env) (i : InputState) (w : World)
    (hlt : liveBossCount (update E i w).enemies < liveBossCount w.enemies) :
    VictoryOrDead (update E i w) := by
  unfold update at hlt ⊢
  split_ifs at hlt ⊢ with hg
  · exact absurd hlt (lt_irrefl _)
  · set w1 := physicsStage E i w with hw1
    set w2 := pitfallStage E w1 with hw2
    set w3 := shootStage E i w2 with hw3
    set w4 := bulletPhase E w3 with hw4
    set w5 := enemyPhase E w4 with hw5
    have he1 : w1.enemies = w.enemies := (physicsStage_frame E i w).2.2.1
    have he2 : w2.enemies = w1.enemies := by
      rw [hw2]
      rcases pitfallStage_cases E w1 with hc | hc <;> rw [hc]
      exact (handlePlayerDeath_frame E w1).2.2.2.1
    have he3 : w3.enemies = w2.enemies := (shootStage_frame E i w2).2.1
    have he5 : liveBossCount w5.enemies = liveBossCount w4.enemies := by
      rw [hw5]
      exact enemyPhase_boss E w4
    have hfin : (invincibilityStage (cameraStage E (particlePhase w5))).enemies
        = w5.enemies := rfl
    rw [hfin, he5] at hlt
    have hlt4 : liveBossCount w4.enemies < liveBossCount w3.enemies := by
      have hle : liveBossCount w4.enemies ≤ liveBossCount w3.enemies := by
        rw [hw4]
        exact (bulletPhase_boss E w3).1
      have : liveBossCount w3.enemies = liveBossCount w.enemies := by
        rw [he3, he2, he1]
      omega
    have hval : VictoryOrDead w4 := by
      rw [hw4]
      refine (bulletPhase_boss E w3).2 ?_
      rw [← hw4]
      exact hlt4
    have hv5 : VictoryOrDead w5 := by
      rw [hw5]
      exact enemyPhase_done E w4 hval
    exact invincibilityStage_done (cameraStage E (particlePhase w5)) hv5

/-- Every bullet surviving an active step has non-negative life. -/
lemma update_life (E : Env) (i : InputState) (w : World)
    (hg : w.gState = .PLAYING) :
    ∀ b ∈ (update E i w).bullets, 0 ≤ b.life := by
  unfold update
  split_ifs with h
  · exact absurd hg h
  · set w3 := shootStage E i (pitfallStage E (physicsStage E i w)) with hw3
    set w4 := bulletPhase E w3 with hw4
    intro b hb
    have hb5 : b ∈ (enemyPhase E w4).bullets := hb
    refine enemyPhase_life E w4 ?_ b hb5
    rw [hw4]
    exact bulletPhase_life E w3

/-! ## Whole-number timers across a step -/

/-- The death handler leaves the timer alone or sets it to 180. -/
lemma handlePlayerDeath_timer_cases (E : Env) (w : World) :
    (handlePlayerDeath E w).player.invincibleTimer = w.player.invincibleTimer ∨
    (handlePlayerDeath E w).player.invincibleTimer = 180 := by
  unfold handlePlayerDeath
  dsimp only
  split_ifs <;> simp

/-- Bullet processing leaves the timer alone or sets it to 180. -/
lemma processOneBullet_timer_cases (E : Env) (w : World) (b : Bullet) :
    (processOneBullet E w b).1.player.invincibleTimer = w.player.invincibleTimer ∨
    (processOneBullet E w b).1.player.invincibleTimer = 180 := by
  unfold processOneBullet
  dsimp only
  split_ifs
  · exact Or.inl rfl
  · exact Or.inl (bulletHitEnemies_frame E _ w w.enemies).2.2.2.2.2.2
  · exact Or.inl (bulletHitEnemies_frame E _ w w.enemies).2.2.2.2.2.2
  · exact handlePlayerDeath_timer_cases E w
  · exact Or.inl rfl

/-- The bullets loop leaves the timer alone or sets it to 180. -/
lemma bulletLoop_timer_cases (E : Env) (bs : List Bullet) (w : World) :
    (bulletLoop E bs w).1.player.invincibleTimer = w.player.invincibleTimer ∨
    (bulletLoop E bs w).1.player.invincibleTimer = 180 := by
  induction bs with
  | nil => exact Or.inl rfl
  | cons b rest ih =>
    rcases processOneBullet_timer_cases E (bulletLoop E rest w).1 b with h | h
    · rcases ih with h2 | h2
      · exact Or.inl (h.trans h2)
      · exact Or.inr (h.trans h2)
    · exact Or.inr h

/-- One enemy iteration leaves the timer alone or sets it to 180. -/
lemma enemyStep_timer_cases (E : Env) (w : World) (e : Enemy) :
    (enemyStep E w e).1.player.invincibleTimer = w.player.invincibleTimer ∨
    (enemyStep E w e).1.player.invincibleTimer = 180 := by
  rcases enemyStep_world E w e with h | h <;> rw [h]
  · exact Or.inl rfl
  · exact handlePlayerDeath_timer_cases E w

/-- The enemies loop leaves the timer alone or sets it to 180. -/
lemma enemyLoop_timer_cases (E : Env) (w : World) (es : List Enemy) :
    (enemyLoop E w es).1.player.invincibleTimer = w.player.invincibleTimer ∨
    (enemyLoop E w es).1.player.invincibleTimer = 180 := by
  induction es generalizing w with
  | nil => exact Or.inl rfl
  | cons e rest ih =>
    have hstep := enemyStep_timer_cases E w e
    have hrest := ih (enemyStep E w e).1
    rcases hrest with h | h
    · rcases hstep with h2 | h2
      · exact Or.inl (h.trans h2)
      · exact Or.inr (h.trans h2)
    · exact Or.inr h

/-- A whole-number invincibility timer stays a whole number across a step:
uses that every write is 180 and the countdown decrements only positive
values. -/
lemma update_timerNat (E : Env) (i : InputState) (w : World)
    (h : ∃ n : ℕ, w.player.invincibleTimer = (n : ℚ)) :
    ∃ n : ℕ, (update E i w).player.invincibleTimer = (n : ℚ) := by
  unfold update
  split_ifs with hg
  · exact h
  · set w1 := physicsStage E i w with hw1
    set w2 := pitfallStage E w1 with hw2
    set w3 := shootStage E i w2 with hw3
    set w4 := bulletPhase E w3 with hw4
    set w5 := enemyPhase E w4 with hw5
    apply invincibilityPhase_timerNat
    have h1 : w1.player.invincibleTimer = w.player.invincibleTimer :=
      (physicsStage_frame E i w).2.2.2.2.2.2.2.2
    have h2 : w2.player.invincibleTimer = w1.player.invincibleTimer ∨
        w2.player.invincibleTimer = 180 := by
      rw [hw2]
      rcases pitfallStage_cases E w1 with hc | hc <;> rw [hc]
      · exact Or.inl rfl
      · exact handlePlayerDeath_timer_cases E w1
    have h3 : w3.player.invincibleTimer = w2.player.invincibleTimer :=
      (shootStage_frame E i w2).2.2.2.2.2.2.2.2
    have h4 : w4.player.invincibleTimer = w3.player.invincibleTimer ∨
        w4.player.invincibleTimer = 180 :=
      bulletLoop_timer_cases E w3.bullets w3
    have h5 : w5.player.invincibleTimer = w4.player.invincibleTimer ∨
        w5.player.invincibleTimer = 180 :=
      enemyLoop_timer_cases E w4 w4.enemies
    have hfin : w5.player.invincibleTimer = w.player.invincibleTimer ∨
        w5.player.invincibleTimer = 180 := by
      rcases h5 with h5 | h5
      · rcases h4 with h4 | h4
        · rcases h2 with h2 | h2
          · exact Or.inl (by rw [h5, h4, h3, h2, h1])
          · exact Or.inr (by rw [h5, h4, h3, h2])
        · exact Or.inr (h5.trans h4)
      · exact Or.inr h5
    obtain ⟨n, hn⟩ := h
    rcases hfin with hf | hf
    · exact ⟨n, by
        show w5.player.invincibleTimer = (n : ℚ)
        rw [hf, hn]⟩
    · exact ⟨180, by
        show w5.player.invincibleTimer = ((180 : ℕ) : ℚ)
        rw [hf]
        norm_num⟩

/-! ## Exact-scoring and shooting helpers for the claims -/

/-- When the first non-dead colliding enemy of the scan dies of the hit, the
score grows by exactly 1000 for the boss and 100 otherwise, and a boss kill
sets VICTORY. -/
lemma bulletHitEnemies_kill (E : Env) (b : Bullet) (w : World)
    (pre post : List Enemy) (e : Enemy)
    (hpre : ∀ e1 ∈ pre, e1.isDead = true ∨ ¬ checkCollision b.box e1.box)
    (halive : e.isDead = false) (hcol : checkCollision b.box e.box)
    (hkill : e.hp - 1 ≤ 0) :
    (bulletHitEnemies E b w (pre ++ e :: post)).1.player.score =
      w.player.score + (if e.type = .boss then 1000 else 100) ∧
    (e.type = .boss →
      (bulletHitEnemies E b w (pre ++ e :: post)).1.gState = .VICTORY) := by
  induction pre with
  | nil =>
    rw [List.nil_append]
    unfold bulletHitEnemies
    dsimp only
    rw [if_pos ⟨by simp [halive], hcol⟩,
      if_pos (show e.hp - 1 ≤ 0 from hkill)]
    constructor
    · split_ifs with hb <;> rfl
    · intro hb
      rw [if_pos hb]
  | cons e1 rest ih =>
    rw [List.cons_append]
    unfold bulletHitEnemies
    dsimp only
    have hcond : ¬(¬ e1.isDead = true ∧ checkCollision b.box e1.box) := by
      rcases hpre e1 (List.mem_cons_self e1 rest) with hd | hc
      · intro hcontra
        exact hcontra.1 hd
      · intro hcontra
        exact hc hcontra.2
    rw [if_neg hcond]
    exact ih fun e2 he2 => hpre e2 (List.mem_cons_of_mem e1 he2)

/-- When the first non-dead colliding enemy of the scan survives the hit, the
score is unchanged. -/
lemma bulletHitEnemies_nokill (E : Env) (b : Bullet) (w : World)
    (pre post : List Enemy) (e : Enemy)
    (hpre : ∀ e1 ∈ pre, e1.isDead = true ∨ ¬ checkCollision b.box e1.box)
    (halive : e.isDead = false) (hcol : checkCollision b.box e.box)
    (hlive : e.hp - 1 > 0) :
    (bulletHitEnemies E b w (pre ++ e :: post)).1.player.score =
      w.player.score := by
  induction pre with
  | nil =>
    rw [List.nil_append]
    unfold bulletHitEnemies
    dsimp only
    rw [if_pos ⟨by simp [halive], hcol⟩,
      if_neg (show ¬ e.hp - 1 ≤ 0 from not_le.mpr hlive)]
  | cons e1 rest ih =>
    rw [List.cons_append]
    unfold bulletHitEnemies
    dsimp only
    have hcond : ¬(¬ e1.isDead = true ∧ checkCollision b.box e1.box) := by
      rcases hpre e1 (List.mem_cons_self e1 rest) with hd | hc
      · intro hcontra
        exact hcontra.1 hd
      · intro hcontra
        exact hc hcontra.2
    rw [if_neg hcond]
    exact ih fun e2 he2 => hpre e2 (List.mem_cons_of_mem e1 he2)

/-- The decremented shoot cooldown, line 357: decrement only while positive. -/
def cooldownTick (c : ℚ) : ℚ :=
  if c > 0 then c - 1 else c

/-- On an accepted fire the shooting phase resets the cooldown, spawns one
bullet with owner player and life 100 at the player center. -/
lemma shootPhase_fires (C : Consts) (i : InputState) (p : Player)
    (hs : i.shoot = true) (hcd : cooldownTick p.shootCooldown ≤ 0) :
    (shootPhase C i p).1.shootCooldown = C.SHOOT_COOLDOWN ∧
    (shootPhase C i p).2 ≠ [] ∧
    ∀ b ∈ (shootPhase C i p).2,
      b.owner = .player ∧ b.life = 100 ∧
      b.x = p.x + p.width / 2 ∧ b.y = p.y + p.height / 2 := by
  unfold cooldownTick at hcd
  unfold shootPhase
  dsimp only
  by_cases hc : p.shootCooldown > 0
  · rw [if_pos hc] at hcd
    simp only [if_pos hc]
    rw [if_pos (show i.shoot = true ∧ p.shootCooldown - 1 ≤ 0 from ⟨hs, hcd⟩)]
    refine ⟨rfl, by simp, ?_⟩
    intro b hb
    rw [List.mem_singleton] at hb
    subst hb
    exact ⟨rfl, rfl, rfl, rfl⟩
  · rw [if_neg hc] at hcd
    simp only [if_neg hc]
    rw [if_pos (show i.shoot = true ∧ p.shootCooldown ≤ 0 from ⟨hs, hcd⟩)]
    refine ⟨rfl, by simp, ?_⟩
    intro b hb
    rw [List.mem_singleton] at hb
    subst hb
    exact ⟨rfl, rfl, rfl, rfl⟩

/-- Without shoot held and an expired cooldown there is no shot. -/
lemma shootPhase_no_fire (C : Consts) (i : InputState) (p : Player)
    (h : ¬(i.shoot = true ∧ cooldownTick p.shootCooldown ≤ 0)) :
    (shootPhase C i p).2 = [] := by
  unfold cooldownTick at h
  unfold shootPhase
  dsimp only
  by_cases hc : p.shootCooldown > 0
  · rw [if_pos hc] at h
    simp only [if_pos hc]
    rw [if_neg (show ¬(i.shoot = true ∧ p.shootCooldown - 1 ≤ 0) from h)]
  · rw [if_neg hc] at h
    simp only [if_neg hc]
    rw [if_neg (show ¬(i.shoot = true ∧ p.shootCooldown ≤ 0) from h)]

/-- A straight-up shot: facing up with no horizontal key spawns a bullet that
moves straight up at full bullet speed. -/
lemma shootPhase_straight_up (C : Consts) (i : InputState) (p : Player)
    (hs : i.shoot = true) (hcd : cooldownTick p.shootCooldown ≤ 0)
    (hfv : p.facingVertical = 1) (hl : i.left = false) (hr : i.right = false) :
    ∀ b ∈ (shootPhase C i p).2, b.vx = 0 ∧ b.vy = -C.BULLET_SPEED := by
  unfold cooldownTick at hcd
  unfold shootPhase
  dsimp only
  by_cases hc : p.shootCooldown > 0
  · rw [if_pos hc] at hcd
    simp only [if_pos hc]
    rw [if_pos (show i.shoot = true ∧ p.shootCooldown - 1 ≤ 0 from ⟨hs, hcd⟩),
      if_pos (show p.facingVertical = 1 from hfv)]
    simp only [hl, hr, Bool.or_self, Bool.false_eq_true, if_false]
    intro b hb
    rw [List.mem_singleton] at hb
    subst hb
    exact ⟨rfl, rfl⟩
  · rw [if_neg hc] at hcd
    simp only [if_neg hc]
    rw [if_pos (show i.shoot = true ∧ p.shootCooldown ≤ 0 from ⟨hs, hcd⟩),
      if_pos (show p.facingVertical = 1 from hfv)]
    simp only [hl, hr, Bool.or_self, Bool.false_eq_true, if_false]
    intro b hb
    rw [List.mem_singleton] at hb
    subst hb
    exact ⟨rfl, rfl⟩

/-- Components of the enemy iteration result: the moved enemy and the spawned
bullets come from the activation block unless the enemy is dead. -/
lemma enemyStep_parts (E : Env) (w : World) (e : Enemy) :
    (enemyStep E w e).2.1 =
      (if e.isDead then e else (enemyAct E w.player w.platforms e).1) ∧
    (enemyStep E w e).2.2 =
      (if e.isDead then [] else (enemyAct E w.player w.platforms e).2) := by
  unfold enemyStep
  dsimp only
  split_ifs <;> exact ⟨rfl, rfl⟩

/-! ## Claims -/

/-- Claim C2 (amended): the score is monotonically non-decreasing across
steps; a player-bullet hit that drops a runner or turret to hp ≤ 0 adds
exactly 100 and a boss kill adds exactly 1000, with the boss kill setting
VICTORY at the moment of the kill; a surviving enemy leaves the score
unchanged; and a step that kills the boss ends in VICTORY unless the player's
hp also drops to ≤ 0 during that same step, in which case it ends in
GAME_OVER. -/
theorem claim_C2 :
    (∀ (E : Env) (i : InputState) (w : World),
        w.player.score ≤ (update E i w).player.score) ∧
    (∀ (E : Env) (b : Bullet) (w : World) (pre post : List Enemy) (e : Enemy),
        (∀ e1 ∈ pre, e1.isDead = true ∨ ¬ checkCollision b.box e1.box) →
        e.isDead = false → checkCollision b.box e.box → e.hp - 1 ≤ 0 →
        (bulletHitEnemies E b w (pre ++ e :: post)).1.player.score =
          w.player.score + (if e.type = .boss then 1000 else 100) ∧
        (e.type = .boss →
          (bulletHitEnemies E b w (pre ++ e :: post)).1.gState = .VICTORY)) ∧
    (∀ (E : Env) (b : Bullet) (w : World) (pre post : List Enemy) (e : Enemy),
        (∀ e1 ∈ pre, e1.isDead = true ∨ ¬ checkCollision b.box e1.box) →
        e.isDead = false → checkCollision b.box e.box → e.hp - 1 > 0 →
        (bulletHitEnemies E b w (pre ++ e :: post)).1.player.score =
          w.player.score) ∧
    (∀ (E : Env) (i : InputState) (w : World),
        liveBossCount (update E i w).enemies < liveBossCount w.enemies →
        (update E i w).gState = .VICTORY ∨
          ((update E i w).gState = .GAME_OVER ∧ (update E i w).player.hp ≤ 0)) := by
  refine ⟨update_score_mono, ?_, ?_, ?_⟩
  · intro E b w pre post e hpre halive hcol hkill
    exact bulletHitEnemies_kill E b w pre post e hpre halive hcol hkill
  · intro E b w pre post e hpre halive hcol hlive
    exact bulletHitEnemies_nokill E b w pre post e hpre halive hcol hlive
  · intro E i w hlt
    exact update_boss E i w hlt

/-- Boss with one hp for the C2 witness. -/
def c2wBoss : Enemy :=
  { id := 0, x := 500, y := 300, width := 60, height := 80, vx := 0, vy := 0,
    color := .enemyRed, isDead := false, type := .boss, hp := 1,
    shootCooldown := 0, anim := .idle, direction := .left }

/-- Player bullet overlapping the boss for the C2 witness. -/
def c2wBullet : Bullet :=
  { x := 500, y := 300, width := 8, height := 8, vx := 0, vy := 0,
    color := .bulletColor, isDead := false, owner := .player, life := 50 }

/-- Minimal world for the C2 witness. -/
def c2wWorld : World :=
  { gState := .PLAYING, player := initPlayer, bullets := [], enemies := [],
    particles := [], platforms := [], camera := 0, tick := 0 }

/-- Witness for C2: a concrete boss kill scores exactly 1000 and sets
VICTORY. -/
theorem claim_C2_witness :
    (bulletHitEnemies specEnv c2wBullet c2wWorld ([] ++ c2wBoss :: [])).1.player.score =
      c2wWorld.player.score + (if c2wBoss.type = .boss then 1000 else 100) ∧
    (c2wBoss.type = .boss →
      (bulletHitEnemies specEnv c2wBullet c2wWorld ([] ++ c2wBoss :: [])).1.gState =
        .VICTORY) :=
  claim_C2.2.1 specEnv c2wBullet c2wWorld [] [] c2wBoss
    (fun e1 he1 => absurd he1 (List.not_mem_nil e1))
    rfl
    (by norm_num [checkCollision, Bullet.box, Enemy.box, c2wBullet, c2wBoss])
    (by norm_num [c2wBoss])

/-- Claim C3 (amended): an accepted damage event that brings hp to ≤ 0 sets
GAME_OVER at that moment, decrements hp by exactly one, and does not execute
the respawn logic (position, velocity and invincibility timer are untouched);
later events of the same step may still run. -/
theorem claim_C3 (E : Env) (w : World)
    (hg : w.player.invincibleTimer ≤ 0) (hhp : w.player.hp - 1 ≤ 0) :
    (handlePlayerDeath E w).gState = .GAME_OVER ∧
    (handlePlayerDeath E w).player.hp = w.player.hp - 1 ∧
    (handlePlayerDeath E w).player.x = w.player.x ∧
    (handlePlayerDeath E w).player.y = w.player.y ∧
    (handlePlayerDeath E w).player.vx = w.player.vx ∧
    (handlePlayerDeath E w).player.vy = w.player.vy ∧
    (handlePlayerDeath E w).player.invincibleTimer = w.player.invincibleTimer := by
  unfold handlePlayerDeath
  dsimp only
  rw [if_neg (not_lt.mpr hg), if_pos (show w.player.hp - 1 ≤ 0 from hhp)]
  exact ⟨rfl, rfl, rfl, rfl, rfl, rfl, rfl⟩

/-- World with a one-hp, non-invincible player for the C3 and C4 witnesses. -/
def c3wWorld : World :=
  { gState := .PLAYING, player := { initPlayer with hp := 1 }, bullets := [],
    enemies := [], particles := [], platforms := [], camera := 0, tick := 0 }

/-- Witness for C3 at a concrete fatal hit. -/
theorem claim_C3_witness :
    (handlePlayerDeath specEnv c3wWorld).gState = .GAME_OVER ∧
    (handlePlayerDeath specEnv c3wWorld).player.hp = c3wWorld.player.hp - 1 ∧
    (handlePlayerDeath specEnv c3wWorld).player.x = c3wWorld.player.x ∧
    (handlePlayerDeath specEnv c3wWorld).player.y = c3wWorld.player.y ∧
    (handlePlayerDeath specEnv c3wWorld).player.vx = c3wWorld.player.vx ∧
    (handlePlayerDeath specEnv c3wWorld).player.vy = c3wWorld.player.vy ∧
    (handlePlayerDeath specEnv c3wWorld).player.invincibleTimer =
      c3wWorld.player.invincibleTimer :=
  claim_C3 specEnv c3wWorld (by norm_num [c3wWorld, initPlayer])
    (by norm_num [c3wWorld, initPlayer])

/-- Claim C4: an accepted damage event decrements hp by exactly one; a damage
trigger while invincible is a strict no-op; and hp never decreases during a
step that begins with a positive invincibility timer. -/
theorem claim_C4 :
    (∀ (E : Env) (w : World), w.player.invincibleTimer ≤ 0 →
        (handlePlayerDeath E w).player.hp = w.player.hp - 1) ∧
    (∀ (E : Env) (w : World), w.player.invincibleTimer > 0 →
        handlePlayerDeath E w = w) ∧
    (∀ (E : Env) (i : InputState) (w : World), w.player.invincibleTimer > 0 →
        (update E i w).player.hp = w.player.hp) := by
  refine ⟨?_, ?_, ?_⟩
  · intro E w h
    exact handlePlayerDeath_hp E w (not_lt.mpr h)
  · intro E w h
    exact handlePlayerDeath_of_invincible E w h
  · intro E i w h
    exact update_hp_invincible E i w h

/-- World with an invincible player for the C4 witness. -/
def c4wWorldInv : World :=
  { gState := .PLAYING, player := { initPlayer with invincibleTimer := 5 },
    bullets := [], enemies := [], particles := [], platforms := [],
    camera := 0, tick := 0 }

/-- Witness for C4: a concrete accepted hit loses one hp, and a concrete
rejected hit is a no-op. -/
theorem claim_C4_witness :
    (handlePlayerDeath specEnv c3wWorld).player.hp = c3wWorld.player.hp - 1 ∧
    handlePlayerDeath specEnv c4wWorldInv = c4wWorldInv := by
  constructor
  · exact claim_C4.1 specEnv c3wWorld (by norm_num [c3wWorld, initPlayer])
  · exact claim_C4.2.1 specEnv c4wWorldInv (by norm_num [c4wWorldInv, initPlayer])

/-- Claim C5 (amended): no bullet with negative life ever survives a step —
countdown and bounds expiry remove a bullet within its sweep, while a
hit-killed bullet is kept for the rest of the step with life exactly 0 and is
removed at the start of the next step's sweep before any collision test. -/
theorem claim_C5 :
    (∀ (E : Env) (i : InputState) (w : World), w.gState = .PLAYING →
        ∀ b ∈ (update E i w).bullets, 0 ≤ b.life) ∧
    (∀ (E : Env) (w : World) (b : Bullet), b.life ≤ 0 →
        (processOneBullet E w b).2 = none) :=
  ⟨update_life, processOneBullet_none⟩

/-- Dead bullet for the C5 witness. -/
def c5wBullet : Bullet :=
  { x := 100, y := 100, width := 8, height := 8, vx := 0, vy := 0,
    color := .bulletColor, isDead := false, owner := .player, life := 0 }

/-- Witness for C5: a concrete bullet entering a sweep with life 0 is
removed. -/
theorem claim_C5_witness :
    (processOneBullet specEnv c2wWorld c5wBullet).2 = none :=
  claim_C5.2 specEnv c2wWorld c5wBullet (by norm_num [c5wBullet])

/-- Claim C6 (amended): the camera starts at 0, never retreats during a play
session, stays within [0, levelLength − viewportWidth] after every step, and
advances only when the player crosses the forward offset — to the follow
target player.x − offset clamped to the level bound (not always to the bare
follow target). -/
theorem claim_C6 :
    (∀ (E : Env) (gs : GameState), (initLevel E gs).camera = 0) ∧
    (∀ (E : Env) (i : InputState) (w : World),
        0 ≤ E.C.LEVEL_LENGTH - E.C.CANVAS_WIDTH →
        0 ≤ w.camera → w.camera ≤ E.C.LEVEL_LENGTH - E.C.CANVAS_WIDTH →
        w.camera ≤ (update E i w).camera ∧ 0 ≤ (update E i w).camera ∧
        (update E i w).camera ≤ E.C.LEVEL_LENGTH - E.C.CANVAS_WIDTH) ∧
    (∀ (C : Consts) (px cam : ℚ),
        cam ≤ C.LEVEL_LENGTH - C.CANVAS_WIDTH →
        cameraPhase C px cam ≠ cam →
        px > cam + C.CAMERA_OFFSET_X ∧
        cameraPhase C px cam =
          min (px - C.CAMERA_OFFSET_X) (C.LEVEL_LENGTH - C.CANVAS_WIDTH)) := by
  refine ⟨fun E gs => rfl, ?_, cameraPhase_advance⟩
  intro E i w hM h0 h1
  exact update_camera E i w hM h0 h1

/-- Neutral input record used by concrete witnesses. -/
def noInputs : InputState :=
  { left := false, right := false, up := false, down := false,
    jump := false, shoot := false }

/-- Witness for C6 on the freshly initialised level. -/
theorem claim_C6_witness :
    (initLevel specEnv .PLAYING).camera ≤
      (update specEnv noInputs (initLevel specEnv .PLAYING)).camera ∧
    0 ≤ (update specEnv noInputs (initLevel specEnv .PLAYING)).camera ∧
    (update specEnv noInputs (initLevel specEnv .PLAYING)).camera ≤
      specEnv.C.LEVEL_LENGTH - specEnv.C.CANVAS_WIDTH :=
  claim_C6.2.1 specEnv noInputs (initLevel specEnv .PLAYING)
    (by norm_num [specEnv, specConsts])
    (by norm_num [initLevel])
    (by norm_num [initLevel, specEnv, specConsts])

/-- Claim C7: a shot fires in a step exactly when shoot is held and the
cooldown, after its decrement-while-positive tick, is non-positive; on fire
the spawned bullet has owner player, life 100, and sits at the player center,
the cooldown resets to SHOOT_COOLDOWN; facing up without horizontal input the
bullet moves straight up with vx = 0 and vy = −BULLET_SPEED. -/
theorem claim_C7 :
    (∀ (C : Consts) (i : InputState) (p : Player),
        (shootPhase C i p).2 ≠ [] ↔
          (i.shoot = true ∧ cooldownTick p.shootCooldown ≤ 0)) ∧
    (∀ (C : Consts) (i : InputState) (p : Player),
        i.shoot = true → cooldownTick p.shootCooldown ≤ 0 →
        (shootPhase C i p).1.shootCooldown = C.SHOOT_COOLDOWN ∧
        ∀ b ∈ (shootPhase C i p).2,
          b.owner = .player ∧ b.life = 100 ∧
          b.x = p.x + p.width / 2 ∧ b.y = p.y + p.height / 2) ∧
    (∀ (C : Consts) (i : InputState) (p : Player),
        i.shoot = true → cooldownTick p.shootCooldown ≤ 0 →
        p.facingVertical = 1 → i.left = false → i.right = false →
        ∀ b ∈ (shootPhase C i p).2, b.vx = 0 ∧ b.vy = -C.BULLET_SPEED) := by
  refine ⟨?_, ?_, ?_⟩
  · intro C i p
    constructor
    · intro hne
      by_contra hcontra
      exact hne (shootPhase_no_fire C i p hcontra)
    · intro hx
      exact (shootPhase_fires C i p hx.1 hx.2).2.1
  · intro C i p hs hcd
    obtain ⟨h1, h2, h3⟩ := shootPhase_fires C i p hs hcd
    exact ⟨h1, h3⟩
  · intro C i p hs hcd hfv hl hr
    exact shootPhase_straight_up C i p hs hcd hfv hl hr

/-- Player facing up for the C7 witness. -/
def c7Player : Player :=
  { initPlayer with facingVertical := 1 }

/-- Inputs holding up and shoot for the C7 witness. -/
def c7Inputs : InputState :=
  { left := false, right := false, up := true, down := false,
    jump := false, shoot := true }

/-- Witness for C7 at a concrete accepted fire. -/
theorem claim_C7_witness :
    (shootPhase specConsts c7Inputs c7Player).1.shootCooldown =
      specConsts.SHOOT_COOLDOWN :=
  (claim_C7.2.1 specConsts c7Inputs c7Player rfl
    (by norm_num [cooldownTick, c7Player, initPlayer])).1

/-- Claim C8: a turret or boss spawns a bullet exactly when its decremented
cooldown reaches ≤ 0 while within the 600-unit activation radius; the bullet
is the atan2-aimed one at half bullet speed with owner enemy and life 200 and
the cooldown resets to 120; runners, dead enemies, dormant enemies, and
enemies with a still-positive cooldown spawn nothing. -/
theorem claim_C8 :
    (∀ (E : Env) (w : World) (e : Enemy),
        (e.type = .turret ∨ e.type = .boss) → e.isDead = false →
        |w.player.x - e.x| < 600 → e.shootCooldown - 1 ≤ 0 →
        (enemyStep E w e).2.2 =
          [enemyBullet E w.player { e with shootCooldown := e.shootCooldown - 1 }] ∧
        (enemyStep E w e).2.1.shootCooldown = 120) ∧
    (∀ (E : Env) (w : World) (e : Enemy), e.type = .runner →
        (enemyStep E w e).2.2 = []) ∧
    (∀ (E : Env) (w : World) (e : Enemy), e.isDead = true →
        (enemyStep E w e).2.2 = []) ∧
    (∀ (E : Env) (w : World) (e : Enemy), ¬ |w.player.x - e.x| < 600 →
        (enemyStep E w e).2.2 = []) ∧
    (∀ (E : Env) (w : World) (e : Enemy),
        (e.type = .turret ∨ e.type = .boss) → e.shootCooldown - 1 > 0 →
        (enemyStep E w e).2.2 = []) := by
  refine ⟨?_, ?_, ?_, ?_, ?_⟩
  · intro E w e htype halive hrad hcd
    have hrm : runnerMove E w.player w.platforms e = e :=
      runnerMove_skip E w.player w.platforms e
        (by rcases htype with h | h <;> simp [h])
    have hact : enemyAct E w.player w.platforms e = enemyShoot E w.player e := by
      unfold enemyAct
      rw [if_pos hrad, hrm]
    have hfire := enemyShoot_fire E w.player e htype hcd
    constructor
    · rw [(enemyStep_parts E w e).2, if_neg (by simp [halive]), hact, hfire]
    · rw [(enemyStep_parts E w e).1, if_neg (by simp [halive]), hact, hfire]
  · intro E w e h
    by_cases hd : e.isDead = true
    · rw [(enemyStep_parts E w e).2, if_pos hd]
    · rw [(enemyStep_parts E w e).2, if_neg hd]
      unfold enemyAct
      by_cases hr : |w.player.x - e.x| < 600
      · rw [if_pos hr]
        apply enemyShoot_no_fire
        intro hcontra
        rcases hcontra.1 with ht | ht <;>
          (rw [(runnerMove_frame E w.player w.platforms e).2, h] at ht
           simp at ht)
      · rw [if_neg hr]
  · intro E w e hd
    rw [(enemyStep_parts E w e).2, if_pos hd]
  · intro E w e h
    by_cases hd : e.isDead = true
    · rw [(enemyStep_parts E w e).2, if_pos hd]
    · rw [(enemyStep_parts E w e).2, if_neg hd]
      unfold enemyAct
      rw [if_neg h]
  · intro E w e htype hcd
    by_cases hd : e.isDead = true
    · rw [(enemyStep_parts E w e).2, if_pos hd]
    · rw [(enemyStep_parts E w e).2, if_neg hd]
      unfold enemyAct
      by_cases hr : |w.player.x - e.x| < 600
      · rw [if_pos hr,
          runnerMove_skip E w.player w.platforms e
            (by rcases htype with h | h <;> simp [h])]
        exact enemyShoot_no_fire E w.player e
          (fun hcontra => absurd hcontra.2 (not_le.mpr hcd))
      · rw [if_neg hr]

/-- Turret at the player's x for the C8 witness. -/
def c8Turret : Enemy :=
  { id := 1, x := 100, y := 300, width := 24, height := 48, vx := 0, vy := 0,
    color := .enemyRed, isDead := false, type := .turret, hp := 1,
    shootCooldown := 0, anim := .idle, direction := .left }

/-- Witness for C8 at a concrete turret fire. -/
theorem claim_C8_witness :
    (enemyStep specEnv c2wWorld c8Turret).2.2 =
      [enemyBullet specEnv c2wWorld.player
        { c8Turret with shootCooldown := c8Turret.shootCooldown - 1 }] ∧
    (enemyStep specEnv c2wWorld c8Turret).2.1.shootCooldown = 120 :=
  claim_C8.1 specEnv c2wWorld c8Turret (Or.inl rfl) rfl
    (by norm_num [c2wWorld, c8Turret, initPlayer])
    (by norm_num [c8Turret])

/-- Claim C9: the invincibility timer starts at 0 at level init and is never
negative — it is a whole number of frames in every reachable state, every
step preserves that, and a whole-number timer is non-negative (the countdown
decrements the timer only while strictly positive and the only other write is
the fixed respawn value 180). -/
theorem claim_C9 :
    (∀ (E : Env) (gs : GameState), (initLevel E gs).player.invincibleTimer = 0) ∧
    (∀ (E : Env) (i : InputState) (w : World),
        (∃ n : ℕ, w.player.invincibleTimer = (n : ℚ)) →
        (∃ n : ℕ, (update E i w).player.invincibleTimer = (n : ℚ))) ∧
    (∀ (w : World), (∃ n : ℕ, w.player.invincibleTimer = (n : ℚ)) →
        0 ≤ w.player.invincibleTimer) := by
  refine ⟨fun E gs => rfl, ?_, ?_⟩
  · intro E i w h
    exact update_timerNat E i w h
  · rintro w ⟨n, hn⟩
    rw [hn]
    exact Nat.cast_nonneg n

/-- Witness for C9 on the freshly initialised level. -/
theorem claim_C9_witness :
    ∃ n : ℕ,
      (update specEnv noInputs (initLevel specEnv .PLAYING)).player.invincibleTimer =
        (n : ℚ) :=
  claim_C9.2.1 specEnv noInputs (initLevel specEnv .PLAYING)
    ⟨0, by norm_num [initLevel, initPlayer]⟩


/-! ## Concrete counterexamples for the corrected claims -/

/-- Rewrite for the runner's turret-or-boss fire-control test. -/
lemma runner_not_shooter :
    (EnemyType.runner = EnemyType.turret ∨ EnemyType.runner = EnemyType.boss) = False := by
  simp

/-- Rewrite for the turret's runner-movement test. -/
lemma turret_not_runner : (EnemyType.turret = EnemyType.runner) = False := by simp

/-- Rewrite for the turret's turret-or-boss fire-control test. -/
lemma turret_is_shooter :
    (EnemyType.turret = EnemyType.turret ∨ EnemyType.turret = EnemyType.boss) = True := by
  simp

/-- Live boss with one hp for the C2 counterexample. -/
def c2cexBoss : Enemy :=
  { id := 2, x := 500, y := 300, width := 60, height := 80, vx := 0, vy := 0,
    color := .enemyRed, isDead := false, type := .boss, hp := 1,
    shootCooldown := 50, anim := .idle, direction := .left }

/-- Runner standing on the player for the C2 counterexample. -/
def c2cexRunner : Enemy :=
  { id := 1, x := 100, y := 90, width := 24, height := 48, vx := 0, vy := 0,
    color := .enemyRed, isDead := false, type := .runner, hp := 1,
    shootCooldown := 0, anim := .idle, direction := .left }

/-- Player bullet resting on the boss for the C2 counterexample. -/
def c2cexBullet : Bullet :=
  { x := 500, y := 300, width := 8, height := 8, vx := 0, vy := 0,
    color := .bulletColor, isDead := false, owner := .player, life := 50 }

/-- World for the C2 counterexample: a one-hp player touched by a runner while
a player bullet kills the one-hp boss in the same step. -/
def c2cexWorld : World :=
  { gState := .PLAYING,
    player := { initPlayer with hp := 1 },
    bullets := [c2cexBullet],
    enemies := [c2cexBoss, c2cexRunner],
    particles := [], platforms := [],
    camera := 0, tick := 0 }

/-- Counterexample to C2 as worded: a step that kills the boss (the live boss
count drops) yet does not end in VICTORY, because a fatal touch death processed
later in the same step overwrites the transition with GAME_OVER. -/
theorem claim_C2_cex :
    liveBossCount (update specEnv noInputs c2cexWorld).enemies <
      liveBossCount c2cexWorld.enemies ∧
    (update specEnv noInputs c2cexWorld).gState ≠ GameState.VICTORY := by
  norm_num [liveBossCount, List.countP_cons, List.countP_nil, update,
    invincibilityStage, cameraStage, particlePhase,
    enemyPhase, enemyLoop, enemyStep, enemyAct, enemyShoot, runnerMove,
    enemyFloorClamp, bulletPhase, bulletLoop, processOneBullet, bulletHitEnemies,
    shootStage, shootPhase, pitfallStage, physicsStage, applyInput, integrate,
    resolvePlatforms, landStep, handlePlayerDeath, cameraPhase,
    invincibilityPhase, checkCollision, Player.box, Enemy.box, Bullet.box,
    runner_not_shooter,
    c2cexWorld, c2cexRunner, c2cexBoss, c2cexBullet, initPlayer,
    specEnv, specConsts, noInputs]
  decide

/-- Runner standing on the player for the C3 counterexample. -/
def c3cexRunner : Enemy :=
  { id := 1, x := 100, y := 90, width := 24, height := 48, vx := 0, vy := 0,
    color := .enemyRed, isDead := false, type := .runner, hp := 1,
    shootCooldown := 0, anim := .idle, direction := .left }

/-- World for the C3 counterexample: a one-hp player touched by two runner
enemies in the same step. -/
def c3cexWorld : World :=
  { gState := .PLAYING,
    player := { initPlayer with hp := 1 },
    bullets := [], enemies := [c3cexRunner, c3cexRunner],
    particles := [], platforms := [],
    camera := 0, tick := 0 }

/-- Counterexample to C3 as worded: the first touch brings hp to 0 and sets
GAME_OVER, yet the second touch is still processed within the same step and
drives hp to -1. -/
theorem claim_C3_cex :
    c3cexWorld.player.hp = 1 ∧
    (update specEnv noInputs c3cexWorld).player.hp = -1 := by
  norm_num [update, invincibilityStage, cameraStage, particlePhase,
    enemyPhase, enemyLoop, enemyStep, enemyAct, enemyShoot, runnerMove,
    enemyFloorClamp, bulletPhase, bulletLoop, shootStage, shootPhase,
    pitfallStage, physicsStage, applyInput, integrate, resolvePlatforms,
    landStep, handlePlayerDeath, cameraPhase, invincibilityPhase,
    checkCollision, Player.box, Enemy.box, runner_not_shooter,
    c3cexWorld, c3cexRunner, initPlayer, specEnv, specConsts, noInputs]

/-- Turret with five hp for the C5 counterexample. -/
def c5cexTurret : Enemy :=
  { id := 1, x := 500, y := 300, width := 24, height := 48, vx := 0, vy := 0,
    color := .enemyRed, isDead := false, type := .turret, hp := 5,
    shootCooldown := 50, anim := .idle, direction := .left }

/-- Player bullet resting on the turret for the C5 counterexample. -/
def c5cexBullet : Bullet :=
  { x := 500, y := 300, width := 8, height := 8, vx := 0, vy := 0,
    color := .bulletColor, isDead := false, owner := .player, life := 50 }

/-- World for the C5 counterexample: a player bullet scoring a non-lethal hit
on a turret. -/
def c5cexWorld : World :=
  { gState := .PLAYING, player := initPlayer, bullets := [c5cexBullet],
    enemies := [c5cexTurret], particles := [], platforms := [],
    camera := 0, tick := 0 }

/-- Counterexample to C5 as worded: the bullet scores a hit, is kept in the
collection with life exactly 0, and the step ends still PLAYING — so a bullet
with life ≤ 0 does survive into the next step. -/
theorem claim_C5_cex :
    (update specEnv noInputs c5cexWorld).gState = GameState.PLAYING ∧
    ((update specEnv noInputs c5cexWorld).bullets.map Bullet.life) = [0] := by
  norm_num [update, invincibilityStage, cameraStage, particlePhase,
    enemyPhase, enemyLoop, enemyStep, enemyAct, enemyShoot, runnerMove,
    enemyFloorClamp, bulletPhase, bulletLoop, processOneBullet,
    bulletHitEnemies, shootStage, shootPhase, pitfallStage, physicsStage,
    applyInput, integrate, resolvePlatforms, landStep, handlePlayerDeath,
    cameraPhase, invincibilityPhase, checkCollision, Player.box, Enemy.box,
    Bullet.box, turret_not_runner, turret_is_shooter,
    c5cexWorld, c5cexTurret, c5cexBullet, initPlayer,
    specEnv, specConsts, noInputs]

/-- World for the C6 counterexample: the player far beyond both the camera
offset and the level-end clamp. -/
def c6cexWorld : World :=
  { gState := .PLAYING,
    player := { initPlayer with x := 5000, y := 100 },
    bullets := [], enemies := [], particles := [], platforms := [],
    camera := 3000, tick := 0 }

/-- Counterexample to C6 as worded: the camera does move (the player is past
the forward offset) but not to the follow target player.x minus the offset —
the forward clamp caps it at LEVEL_LENGTH − CANVAS_WIDTH instead. -/
theorem claim_C6_cex :
    (update specEnv noInputs c6cexWorld).player.x = c6cexWorld.player.x ∧
    (update specEnv noInputs c6cexWorld).camera ≠ c6cexWorld.camera ∧
    (update specEnv noInputs c6cexWorld).camera ≠
      c6cexWorld.player.x - specEnv.C.CAMERA_OFFSET_X := by
  norm_num [update, invincibilityStage, cameraStage, particlePhase, enemyPhase,
    enemyLoop, bulletPhase, bulletLoop, shootStage, shootPhase, pitfallStage,
    physicsStage, applyInput, integrate, resolvePlatforms, landStep,
    handlePlayerDeath, cameraPhase, invincibilityPhase, c6cexWorld, initPlayer,
    specEnv, specConsts, noInputs]

end Contra
